import Mathlib

/-!
# loco_renderer: the example programs and the resource layer they drive

A shallow embedding of the example programs under `examples/` of
wpumacay/loco_renderer.  Every `main` is embedded as a function from what
the environment feeds it (whether resources were created successfully, what
the window and the input manager report in every loop iteration) to the
sequence of calls it issues on its collaborators, in program order, together
with the way the run ends.

The classes behind those calls (windows, buffers, vertex arrays, textures,
programs, resource managers) are declared in headers that the examples include
and that are not among the sources; what the examples need of them is modelled
from the specification and marked so.
-/

namespace LocoRenderer

/-! ## Calls, traces and runs -/

/-- The GPU resources that the examples bind and unbind. A texture is identified
by the name or path it was created from. -/
inductive Resource
  | program
  | texture (name : String)
  | vertexArray
  deriving DecidableEq, Repr

/-- Primitive modes accepted by `glDrawElements`. -/
inductive DrawMode
  | GL_POINTS
  | GL_LINES
  | GL_TRIANGLES
  deriving DecidableEq, Repr

/-- Keys reported to a keyboard callback: the escape key, or any other key
with its code. -/
inductive Key
  | KEY_ESCAPE
  | other (code : Nat)
  deriving DecidableEq, Repr

/-- The calls that the examples issue, as they appear in the source text.
Printing to the standard output and the immediate-mode UI widgets are left
out. -/
inductive Call
  /-- Construction of the window or of the application. -/
  | NewWindow
  /-- One of the `Register...Callback(...)` calls on the window. -/
  | RegisterCallback
  /-- `Begin()` / `begin()` of the window or application. -/
  | Begin
  /-- `End()` / `end()` of the window or application. -/
  | End
  /-- `RequestClose()` of the window. -/
  | RequestClose
  /-- `Build()` of a program. -/
  | Build
  /-- `IsValid()` of a program. -/
  | IsValid
  /-- `LOG_CORE_ERROR(...)`. -/
  | LogError
  /-- `ENGINE_ASSERT(cond, ...)` with the value of its condition. -/
  | EngineAssert (cond : Bool)
  /-- Construction of a program from shader sources, or its retrieval from a
  shader manager under the given name. -/
  | NewProgram (name : String)
  /-- `GetCachedTextureData(name)`. -/
  | GetCachedTextureData (name : String)
  /-- `GetCachedTexture(name)`, or construction of a texture from the image at
  the given path. -/
  | NewTexture (name : String)
  /-- Construction of a vertex buffer of the given byte size. -/
  | NewVertexBuffer (size : Nat)
  /-- Construction of an index buffer of the given element count. -/
  | NewIndexBuffer (count : Nat)
  /-- Construction of a vertex array. -/
  | NewVertexArray
  /-- `AddVertexBuffer` / `addVertexBuffer` of a vertex array. -/
  | AddVertexBuffer
  /-- `SetIndexBuffer` / `setIndexBuffer` of a vertex array. -/
  | SetIndexBuffer
  /-- `CreateBox(...)` of the geometry factory. -/
  | CreateBox
  /-- `Update()` of the orbit camera controller. -/
  | Update
  /-- `Bind()` / `bind()` of a resource. -/
  | Bind (r : Resource)
  /-- `Unbind()` / `unbind()` of a resource. -/
  | Unbind (r : Resource)
  /-- A uniform setter of the bound program (`SetMat4`, `SetVec3`, ...). -/
  | SetUniform (name : String)
  /-- `glDrawElements(mode, count, GL_UNSIGNED_INT, nullptr)`; `count` is a signed
  32-bit integer. -/
  | DrawElements (mode : DrawMode) (count : Int)
  deriving DecidableEq, Repr

/-- How a run of `main` ends: it returns an exit code, an `ENGINE_ASSERT` fails,
or a member function is called through the named pointer while it is null. -/
inductive Outcome
  | returned (code : Int)
  | assertFailed
  | nullDeref (pointer : String)
  deriving DecidableEq, Repr

/-- A finished run of `main`: the calls issued, in order, and how it ended. -/
structure Run where
  trace : List Call
  outcome : Outcome
  deriving DecidableEq, Repr

/-- Puts the calls `pre` in front of a run. -/
def Run.after (pre : List Call) (r : Run) : Run :=
  { trace := pre ++ r.trace, outcome := r.outcome }

/-- A straight-line block of calls: the calls it issued and, when it did not run
to its end, how the run ended inside it. -/
structure Block where
  calls : List Call
  fault : Option Outcome
  deriving DecidableEq, Repr

/-- Conversion of an unsigned count to the signed 32-bit integer that
`glDrawElements` takes (`GLsizei`, `GLint`): the value modulo `2^32`, read in
two's complement. -/
def toGLint (n : Nat) : Int :=
  if n % 2 ^ 32 < 2 ^ 31 then ((n % 2 ^ 32 : Nat) : Int) else ((n % 2 ^ 32 : Nat) : Int) - 2 ^ 32

/-- Modelled from the spec: `ENGINE_ASSERT(cond, msg)`, a macro that is not among
the sources: a "fatal check (fail fast, not recoverable)". The run goes on with
`k` when the condition holds and ends there when it does not. -/
def ENGINE_ASSERT (cond : Bool) (k : Run) : Run :=
  Run.after [Call.EngineAssert cond] (if cond then k else { trace := [], outcome := .assertFailed })

/-! ## Buffers and vertex arrays -/

/-- Modelled from the spec: the element types of a vertex attribute, which are
declared in a header that is not among the sources. The spec names
"Float1..Float4, Int..."; the float types are the ones the examples use, and
an integer type carries its byte size, which the spec leaves open. -/
inductive eElementType
  | FLOAT_1
  | FLOAT_2
  | FLOAT_3
  | FLOAT_4
  | INT (bytes : Nat)
  deriving DecidableEq, Repr

/-- Modelled from the spec: the byte size of an element type, computed by a
function that is not among the sources; `FLOAT_n` is `n` floats of 4 bytes. -/
def GetElementSize : eElementType → Nat
  | .FLOAT_1 => 4
  | .FLOAT_2 => 8
  | .FLOAT_3 => 12
  | .FLOAT_4 => 16
  | .INT bytes => bytes

/-- An attribute as the examples write it in a layout's initializer list:
`{name, element type, normalized}`. -/
structure BufferAttribute where
  name : String
  type : eElementType
  normalized : Bool
  deriving DecidableEq, Repr

/-- Modelled from the spec: an attribute descriptor stored in a layout, with the
byte size and byte offset derived for it. -/
structure BufferElement where
  name : String
  type : eElementType
  size : Nat
  offset : Nat
  normalized : Bool
  deriving DecidableEq, Repr

/-- Modelled from the spec: the vertex buffer layout class, which is not among
the sources: an "ordered sequence of attribute descriptors" that "defines byte
offsets/strides derived by accumulation". -/
structure BufferLayout where
  elements : List BufferElement
  stride : Nat
  deriving DecidableEq, Repr

/-- Modelled from the spec: appending one attribute to a layout (not among the
sources). The attribute is placed at the current stride, which then grows by
the attribute's byte size. -/
def BufferLayout.AddElement (l : BufferLayout) (a : BufferAttribute) : BufferLayout :=
  { elements := l.elements ++
      [{ name := a.name, type := a.type, size := GetElementSize a.type,
         offset := l.stride, normalized := a.normalized }],
    stride := l.stride + GetElementSize a.type }

/-- Modelled from the spec: construction of a layout from an initializer list
(not among the sources): the attributes are added one by one, in order. -/
def BufferLayout.ofList (attrs : List BufferAttribute) : BufferLayout :=
  attrs.foldl BufferLayout.AddElement { elements := [], stride := 0 }

/-- The byte offsets of a layout's attributes, in order. -/
def BufferLayout.offsets (l : BufferLayout) : List Nat :=
  l.elements.map BufferElement.offset

/-- The usage hint of a buffer. -/
inductive eBufferUsage
  | STATIC
  | DYNAMIC
  deriving DecidableEq, Repr

/-- Modelled from the spec: a vertex buffer (class not among the sources): "a
layout, a usage hint (STATIC/DYNAMIC), and a byte size". -/
structure VertexBuffer where
  layout : BufferLayout
  usage : eBufferUsage
  size : Nat
  deriving DecidableEq, Repr

/-- Modelled from the spec: an index buffer (class not among the sources):
"element count, and usage hint"; `count()` returns the element count the buffer
was constructed with. -/
structure IndexBuffer where
  usage : eBufferUsage
  count : Nat
  deriving DecidableEq, Repr

/-- Modelled from the spec: a vertex array (class not among the sources): "owns
zero-or-more VertexBuffers and at most one IndexBuffer". -/
structure VertexArray where
  vertexBuffers : List VertexBuffer
  indexBuffer : Option IndexBuffer
  deriving DecidableEq, Repr

/-- A freshly constructed vertex array. -/
def VertexArray.new : VertexArray :=
  { vertexBuffers := [], indexBuffer := none }

/-- Modelled from the spec: `AddVertexBuffer` attaches one more vertex buffer. -/
def VertexArray.AddVertexBuffer (v : VertexArray) (b : VertexBuffer) : VertexArray :=
  { v with vertexBuffers := v.vertexBuffers ++ [b] }

/-- Modelled from the spec: `SetIndexBuffer` makes the given buffer the attached
index buffer. -/
def VertexArray.SetIndexBuffer (v : VertexArray) (b : IndexBuffer) : VertexArray :=
  { v with indexBuffer := some b }

/-! ## examples/core/sample_texture.cpp -/

namespace sample_texture

/-- What the resource managers hand back to `main`: whether
`GetCachedTexture("img_container")`, `GetCachedTexture("img_smiley")` and
`GetCachedShader("basic2d_textures")` returned a non-null pointer. -/
structure Assets where
  textureContainer : Bool
  textureSmiley : Bool
  shader : Bool
  deriving DecidableEq, Repr

/-- The value of `sizeof( _bufferData )`: 4 rows of 7 floats. -/
def sizeof_bufferData : Nat := 4 * 7 * 4

/-- The array `_indices`. -/
def _indices : List Nat := [0, 1, 2, 0, 2, 3]

/-- The layout `_layout`. -/
def _layout : BufferLayout :=
  BufferLayout.ofList
    [{ name := "pos", type := .FLOAT_2, normalized := false },
     { name := "col", type := .FLOAT_3, normalized := false },
     { name := "uv", type := .FLOAT_2, normalized := false }]

/-- The buffer `_vbuffer`. -/
def _vbuffer : VertexBuffer := { layout := _layout, usage := .STATIC, size := sizeof_bufferData }

/-- The buffer `_ibuffer`, constructed with 6 elements. -/
def _ibuffer : IndexBuffer := { usage := .STATIC, count := 6 }

/-- The vertex array `_varray` after `addVertexBuffer` and `setIndexBuffer`. -/
def _varray : VertexArray :=
  (VertexArray.new.AddVertexBuffer _vbuffer).SetIndexBuffer _ibuffer

/-- The loop body after the escape check, up to and excluding `_app->end()`. -/
def render (a : Assets) (va : VertexArray) : Block :=
  if !a.shader then
    { calls := [], fault := some (.nullDeref "_shader") }
  else if !a.textureSmiley then
    { calls := [.Bind .program, .Bind .vertexArray], fault := some (.nullDeref "_textureSmiley") }
  else
    match va.indexBuffer with
    | none =>
      { calls := [.Bind .program, .Bind .vertexArray, .Bind (.texture "img_smiley")],
        fault := some (.nullDeref "indexBuffer()") }
    | some ib =>
      { calls := [.Bind .program, .Bind .vertexArray, .Bind (.texture "img_smiley"),
                  .DrawElements .GL_TRIANGLES (toGLint ib.count),
                  .Unbind (.texture "img_smiley"), .Unbind .vertexArray, .Unbind .program],
        fault := none }

/-- The loop `while( _app->active() )`. The list holds one entry for every
iteration that `active()` lets in: what `IsKeyDown( ENGINE_KEY_ESCAPE )` answers
in it. After the last entry `active()` is false. -/
def loop (a : Assets) (va : VertexArray) : List Bool → Run
  | [] => { trace := [], outcome := .returned 0 }
  | escape :: rest =>
    if escape then
      { trace := [.Begin], outcome := .returned 0 }
    else
      match render a va with
      | { calls := calls, fault := some o } => { trace := .Begin :: calls, outcome := o }
      | { calls := calls, fault := none } => Run.after (.Begin :: calls ++ [.End]) (loop a va rest)

/-- The function `main` of `sample_texture.cpp`. -/
def main (a : Assets) (frames : List Bool) : Run :=
  Run.after [.NewWindow, .GetCachedTextureData "img_container", .GetCachedTextureData "img_smiley",
             .NewTexture "img_container"] <|
  ENGINE_ASSERT a.textureContainer <|
  Run.after [.NewTexture "img_smiley"] <|
  ENGINE_ASSERT a.textureContainer <|
  Run.after [.NewVertexBuffer sizeof_bufferData, .NewIndexBuffer 6, .NewVertexArray,
             .AddVertexBuffer, .SetIndexBuffer, .NewProgram "basic2d_textures"] <|
  loop a _varray frames

end sample_texture

/-! ## examples/cpp/example_05_textures.cpp -/

namespace example_05_textures

/-- The constant `NUM_VERTICES`. -/
def NUM_VERTICES : Nat := 6

/-- The path `IMAGE_PATH`, relative to the resources directory. -/
def IMAGE_PATH : String := "images/awesomeface.png"

/-- The value of `sizeof(buffer_data)`: 4 rows of 7 floats. -/
def sizeof_buffer_data : Nat := 4 * 7 * 4

/-- The array `buffer_indices`. -/
def buffer_indices : List Nat := [0, 1, 2, 0, 2, 3]

/-- The layout `layout`. -/
def layout : BufferLayout :=
  BufferLayout.ofList
    [{ name := "position", type := .FLOAT_2, normalized := false },
     { name := "color", type := .FLOAT_3, normalized := false },
     { name := "texcoord", type := .FLOAT_2, normalized := false }]

/-- The buffer `vbo`. -/
def vbo : VertexBuffer := { layout := layout, usage := .STATIC, size := sizeof_buffer_data }

/-- The buffer `ibo`, constructed with `NUM_VERTICES` elements. -/
def ibo : IndexBuffer := { usage := .STATIC, count := NUM_VERTICES }

/-- The keyboard callback registered on the window. -/
def keyboardCallback (key : Key) : List Call :=
  if key = .KEY_ESCAPE then [.RequestClose] else []

/-- Modelled from the spec: the window's event polling (not among the sources),
which invokes the registered callback "synchronously during event polling
inside `Begin()`", once for every key event. -/
def pollEvents : List Key → List Call
  | [] => []
  | key :: rest => keyboardCallback key ++ pollEvents rest

/-- One iteration of the loop body, given the key events that `Begin()` polls. -/
def frame (keys : List Key) : List Call :=
  [.Begin] ++ pollEvents keys ++
  [.Bind .program, .Bind (.texture IMAGE_PATH), .Bind .vertexArray,
   .DrawElements .GL_TRIANGLES (toGLint NUM_VERTICES),
   .Unbind .vertexArray, .Unbind (.texture IMAGE_PATH), .Unbind .program,
   .End]

/-- The loop `while (window->active())`. The list holds one entry for every
iteration that `active()` lets in: the key events polled in it. -/
def loop : List (List Key) → List Call
  | [] => []
  | keys :: rest => frame keys ++ loop rest

/-- The function `main` of `example_05_textures.cpp`. The validity of the program
is never queried, so the run does not depend on it. -/
def main (frames : List (List Key)) : Run :=
  { trace := [.NewWindow, .RegisterCallback, .NewProgram "basic_2d",
              .NewVertexBuffer sizeof_buffer_data, .NewIndexBuffer NUM_VERTICES, .NewVertexArray,
              .AddVertexBuffer, .SetIndexBuffer, .NewTexture IMAGE_PATH] ++ loop frames,
    outcome := .returned 0 }

end example_05_textures

/-! ## examples/cpp/example_05_textures_opengl.cpp -/

namespace example_05_textures_opengl

/-- The constant `NUM_INDICES`. -/
def NUM_INDICES : Nat := 6

/-- The path `IMAGE_PATH`, relative to the resources directory. -/
def IMAGE_PATH : String := "images/container.jpg"

/-- The value of `sizeof(buffer_data)`: 4 rows of 4 floats. -/
def sizeof_buffer_data : Nat := 4 * 4 * 4

/-- The array `buffer_indices`. -/
def buffer_indices : List Nat := [0, 1, 2, 0, 2, 3]

/-- The layout `layout`. -/
def layout : BufferLayout :=
  BufferLayout.ofList
    [{ name := "position", type := .FLOAT_2, normalized := false },
     { name := "texcoord", type := .FLOAT_2, normalized := false }]

/-- The buffer `vbo`. -/
def vbo : VertexBuffer := { layout := layout, usage := .STATIC, size := sizeof_buffer_data }

/-- The buffer `ibo`, constructed with `NUM_INDICES` elements. -/
def ibo : IndexBuffer := { usage := .STATIC, count := NUM_INDICES }

/-- The keyboard callback registered on the window. -/
def keyboardCallback (key : Key) : List Call :=
  if key = .KEY_ESCAPE then [.RequestClose] else []

/-- Modelled from the spec: the window's event polling (not among the sources),
which invokes the registered callback "synchronously during event polling
inside `Begin()`", once for every key event. -/
def pollEvents : List Key → List Call
  | [] => []
  | key :: rest => keyboardCallback key ++ pollEvents rest

/-- One iteration of the loop body (built without the immediate-mode UI), given
the key events that `Begin()` polls. -/
def frame (keys : List Key) : List Call :=
  [.Begin] ++ pollEvents keys ++
  [.Bind .program, .Bind (.texture IMAGE_PATH), .Bind .vertexArray,
   .DrawElements .GL_TRIANGLES (toGLint NUM_INDICES),
   .Unbind .vertexArray, .Unbind (.texture IMAGE_PATH), .Unbind .program,
   .End]

/-- The loop `while (window->active())`. The list holds one entry for every
iteration that `active()` lets in: the key events polled in it. -/
def loop : List (List Key) → List Call
  | [] => []
  | keys :: rest => frame keys ++ loop rest

/-- The function `main` of `example_05_textures_opengl.cpp`; `programValid` is
what `program->IsValid()` answers after `Build()`. -/
def main (programValid : Bool) (frames : List (List Key)) : Run :=
  Run.after [.NewWindow, .RegisterCallback, .NewProgram "", .Build, .IsValid] <|
  if !programValid then
    { trace := [.LogError], outcome := .returned 1 }
  else
    { trace := [.NewVertexBuffer sizeof_buffer_data, .NewIndexBuffer NUM_INDICES, .NewVertexArray,
                .AddVertexBuffer, .SetIndexBuffer, .NewTexture IMAGE_PATH] ++ loop frames,
      outcome := .returned 0 }

end example_05_textures_opengl

/-! ## examples/cpp/example_11_camera_controllers.cpp -/

namespace example_11_camera_controllers

/-- The uniforms written between `program->Bind()` and the bind of the vertex
array, in order. -/
def uniforms : List String :=
  ["u_model_matrix", "u_normal_matrix", "u_view_proj_matrix", "u_viewer_position",
   "u_object_color", "u_ambient_light", "u_dir_light.direction", "u_dir_light.color",
   "u_dir_light.intensity", "u_dir_light.enabled", "u_point_light.enabled",
   "u_spot_light.enabled"]

/-- One iteration of the loop body (built without the immediate-mode UI).
`indexCount` is what `geometry->VAO().index_buffer().count()` returns and
`escape` what `input_manager.IsKeyDown(KEY_ESCAPE)` answers. -/
def frame (indexCount : Nat) (escape : Bool) : List Call :=
  if escape then
    [.Begin, .RequestClose]
  else
    [.Begin, .Update, .Bind .program] ++ uniforms.map Call.SetUniform ++
    [.Bind .vertexArray,
     .DrawElements .GL_TRIANGLES (toGLint indexCount),
     .Unbind .vertexArray, .Unbind .program,
     .End]

/-- The loop `while (window.active())`. The list holds one entry for every
iteration that `active()` lets in: what `IsKeyDown(KEY_ESCAPE)` answers in it. -/
def loop (indexCount : Nat) : List Bool → List Call
  | [] => []
  | escape :: rest => frame indexCount escape ++ loop indexCount rest

/-- The function `main` of `example_11_camera_controllers.cpp`. `indexCount` is
the element count of the index buffer of the box that `CreateBox` returns. The
callbacks registered on the window touch the input manager, the camera and its
controller only. -/
def main (indexCount : Nat) (frames : List Bool) : Run :=
  { trace := [.NewWindow, .RegisterCallback, .NewProgram "basicPhong", .CreateBox,
              .RegisterCallback, .RegisterCallback, .RegisterCallback, .RegisterCallback,
              .RegisterCallback] ++ loop indexCount frames,
    outcome := .returned 0 }

end example_11_camera_controllers

/-! ## Properties of traces

Every ordering property is a monitor: a state machine that reads the trace call
by call and gets stuck at the first call that breaks the property. -/

/-- Runs the monitor `step` from state `s` over a trace; `none` when it gets
stuck, the final state otherwise. -/
def monitor {σ : Type} (step : σ → Call → Option σ) : σ → List Call → Option σ
  | s, [] => some s
  | s, c :: t =>
    match step s c with
    | none => none
    | some s' => monitor step s' t

/-- Monitor of the frame boundary; the state tells whether a frame is begun and
not yet ended. `Begin` is refused inside a frame, `End` outside of one. -/
def frameStep : Bool → Call → Option Bool
  | false, .Begin => some true
  | true, .Begin => none
  | true, .End => some false
  | false, .End => none
  | inFrame, _ => some inFrame

/-- Every `Begin` of the trace is followed by its `End` before the next `Begin`
and before the trace ends. -/
def framesClosed (t : List Call) : Prop :=
  monitor frameStep false t = some false

instance (t : List Call) : Decidable (framesClosed t) :=
  inferInstanceAs (Decidable (monitor frameStep false t = some false))

/-- State of the bind monitors: the resources bound so far, the most recent
first, and whether the frame has issued its draw call. -/
structure BindState where
  bound : List Resource
  drawn : Bool
  deriving DecidableEq, Repr

/-- Monitor of the order of unbinds. `Bind` pushes the resource and is refused
after the draw; `Unbind` is refused before the draw and unless it names the
resource bound last among those still bound, which it pops; `Begin` and `End`
are refused while a resource is bound. -/
def reverseStep : BindState → Call → Option BindState
  | s, .Begin => if s.bound = [] then some { bound := [], drawn := false } else none
  | s, .End => if s.bound = [] then some { bound := [], drawn := false } else none
  | s, .Bind r => if s.drawn then none else some { bound := r :: s.bound, drawn := false }
  | s, .DrawElements _ _ => some { bound := s.bound, drawn := true }
  | s, .Unbind r =>
    match s.bound with
    | top :: below => if s.drawn ∧ top = r then some { bound := below, drawn := true } else none
    | [] => none
  | s, _ => some s

/-- In every frame of the trace the resources bound before the draw are unbound
after it in the reverse order, and none stays bound when the frame ends or the
trace ends. -/
def unbindsReverseBinds (t : List Call) : Bool :=
  match monitor reverseStep { bound := [], drawn := false } t with
  | some s => s.bound.isEmpty
  | none => false

/-- Monitor of what is bound at the draw. Within a frame `Bind` is refused after
the draw and `Unbind` before it; the draw is refused unless every resource of
`needed` is currently bound. -/
def drawStep (needed : List Resource) : BindState → Call → Option BindState
  | s, .Begin => some { bound := s.bound, drawn := false }
  | s, .Bind r => if s.drawn then none else some { bound := r :: s.bound, drawn := false }
  | s, .Unbind r => if s.drawn then some { bound := s.bound.erase r, drawn := true } else none
  | s, .DrawElements _ _ =>
    if needed.all (fun r => decide (r ∈ s.bound)) then some { bound := s.bound, drawn := true }
    else none
  | s, _ => some s

/-- At every draw of the trace all resources of `needed` are bound, every bind of
the frame precedes the draw and no unbind of the frame precedes it. -/
def boundAtDraw (needed : List Resource) (t : List Call) : Bool :=
  (monitor (drawStep needed) { bound := [], drawn := false } t).isSome

/-- Monitor of the order of binds; the state lists the resources bound since the
last `Begin`, the first one first. The draw is refused unless that list is
`order`. -/
def orderStep (order : List Resource) : List Resource → Call → Option (List Resource)
  | _, .Begin => some []
  | bs, .Bind r => some (bs ++ [r])
  | bs, .DrawElements _ _ => if bs = order then some bs else none
  | bs, _ => some bs

/-- At every draw of the trace the binds of the frame so far are exactly those of
`order`, in that order. -/
def bindOrder (order : List Resource) (t : List Call) : Bool :=
  (monitor (orderStep order) [] t).isSome

/-- Monitor of the draws of a frame; the state counts the draws since the last
`Begin`. A draw is refused unless it draws 6 indices as a triangle list, and
`End` is refused unless the frame has issued exactly one draw. -/
def drawCountStep : Nat → Call → Option Nat
  | _, .Begin => some 0
  | k, .DrawElements mode count =>
    if mode = .GL_TRIANGLES ∧ count = 6 then some (k + 1) else none
  | k, .End => if k = 1 then some k else none
  | k, _ => some k

/-- Every frame of the trace that reaches its `End` has issued exactly one indexed
draw, and every draw of the trace draws 6 indices as a triangle list. -/
def oneDrawPerFrame (t : List Call) : Bool :=
  (monitor drawCountStep 0 t).isSome

/-- Monitor of the validity check; the state tells whether `IsValid()` has been
called. `Bind()` of the program is refused before that. -/
def validityStep : Bool → Call → Option Bool
  | _, .IsValid => some true
  | checked, .Bind .program => if checked then some checked else none
  | checked, _ => some checked

/-- No `Bind()` of the program is reached before the program's validity has been
checked. -/
def validityCheckedBeforeBind (t : List Call) : Bool :=
  (monitor validityStep false t).isSome

/-- Calls that create a buffer or a vertex array, begin a frame, bind a resource
or draw. -/
def Call.allocatesOrRenders : Call → Bool
  | .NewVertexBuffer _ => true
  | .NewIndexBuffer _ => true
  | .NewVertexArray => true
  | .Begin => true
  | .Bind _ => true
  | .DrawElements _ _ => true
  | _ => false

/-! ## Vertex counts and triangles -/

/-- The number of whole vertices a vertex buffer holds: its byte size divided by
the stride of its layout. -/
def VertexBuffer.vertexCount (b : VertexBuffer) : Nat :=
  b.size / b.layout.stride

/-- The triangles that an indexed draw of a triangle list assembles from an index
array: consecutive groups of three indices. -/
def triangles : List Nat → List (List Nat)
  | a :: b :: c :: rest => [a, b, c] :: triangles rest
  | _ => []

/-! ## Single-precision numbers

The examples compute with `float`. A finite single-precision number is a whole
multiple of `2^-149`, so it is kept as that multiple; an arithmetic operation
delivers the exact result rounded to the nearest representable number, ties to
the even one. Signed zeros are not told apart: no divisor in the examples can be
a negative zero. -/

/-- A single-precision number: a finite one, given by its value in units of
`2^-149`, an infinity with its sign, or a NaN. -/
inductive F32
  | finite (units : Int)
  | inf (negative : Bool)
  | nan
  deriving DecidableEq, Repr

/-- The quotient `n / d` rounded to the nearest natural number, ties to even. -/
def roundHalfEven (n d : Nat) : Nat :=
  if 2 * (n % d) < d then n / d
  else if d < 2 * (n % d) then n / d + 1
  else if (n / d) % 2 = 0 then n / d
  else n / d + 1

/-- The number of bits by which `q` exceeds 24 bits (for `q` below `2^(24 + fuel)`):
the number of low bits that a 24-bit significand cannot hold. -/
def excessBits : Nat → Nat → Nat
  | 0, _ => 0
  | fuel + 1, q => if q < 2 ^ 24 then 0 else excessBits fuel (q / 2) + 1

/-- The quotient `n / d`, counted in units of `2^-149` and below `2^277` units,
rounded to the nearest number with a 24-bit significand, ties to even. -/
def roundUnits (n d : Nat) : Nat :=
  roundHalfEven n (d * 2 ^ excessBits 254 (n / d)) * 2 ^ excessBits 254 (n / d)

/-- Rounding of the magnitude `n / d` (in units of `2^-149`) with the given sign
to single precision; magnitudes that round to `2^128` or more overflow to an
infinity. -/
def F32.round (negative : Bool) (n d : Nat) : F32 :=
  if 2 ^ 149 * 2 ^ 128 ≤ n / d then .inf negative
  else if 2 ^ 149 * 2 ^ 128 ≤ roundUnits n d then .inf negative
  else .finite (if negative then - (roundUnits n d : Int) else (roundUnits n d : Int))

/-- The conversion `static_cast<float>(n)` of an integer, and integral literals
such as `20.0F`. -/
def F32.ofInt (n : Int) : F32 :=
  F32.round (decide (n < 0)) (n.natAbs * 2 ^ 149) 1

/-- A decimal literal with the value `n / d`, such as `0.1F`. -/
def F32.ofRatio (n d : Nat) : F32 :=
  F32.round false (n * 2 ^ 149) d

/-- Single-precision division. -/
def F32.div : F32 → F32 → F32
  | .finite a, .finite b =>
    if b = 0 then (if a = 0 then .nan else .inf (decide (a < 0)))
    else F32.round (decide ((a < 0) ≠ (b < 0))) (a.natAbs * 2 ^ 149) b.natAbs
  | .finite _, .inf _ => .finite 0
  | .inf s, .finite b => .inf (s != decide (b < 0))
  | _, _ => .nan

/-- Single-precision multiplication. -/
def F32.mul : F32 → F32 → F32
  | .finite a, .finite b =>
    F32.round (decide ((a < 0) ≠ (b < 0))) (a.natAbs * b.natAbs) (2 ^ 149)
  | .finite a, .inf s => if a = 0 then .nan else .inf (s != decide (a < 0))
  | .inf s, .finite b => if b = 0 then .nan else .inf (s != decide (b < 0))
  | .inf s, .inf t => .inf (s != t)
  | _, _ => .nan

/-- The comparison `a < b`; it is false as soon as one side is a NaN. -/
def F32.lt : F32 → F32 → Bool
  | .finite a, .finite b => decide (a < b)
  | .finite _, .inf negative => !negative
  | .inf negative, .finite _ => negative
  | .inf s, .inf t => s && !t
  | _, _ => false

/-- Whether `a / b = c` holds exactly, as an equation between the real values of
three finite numbers. -/
def F32.quotientIsExactly : F32 → F32 → F32 → Bool
  | .finite a, .finite b, .finite c => decide (b ≠ 0) && decide (a * 2 ^ 149 = c * b)
  | _, _, _ => false

/-- Whether the number is finite. -/
def F32.isFinite : F32 → Bool
  | .finite _ => true
  | _ => false

/-- The exact value of a finite number; `none` for an infinity or a NaN. -/
def F32.toRat : F32 → Option ℚ
  | .finite units => some ((units : ℚ) / 2 ^ 149)
  | _ => none

/-! ## Resource managers -/

/-- Modelled from the spec: a resource manager's cache (the managers' code is not
among the sources; `LShaderManager.h` declares the name-keyed map only): a
"mapping from logical resource name (string) to a shared-ownership resource instance".
An instance is identified by its serial number of construction, and `constructed`
counts the resources constructed so far. -/
structure ResourceCache where
  entries : List (String × Nat)
  constructed : Nat
  deriving DecidableEq, Repr

/-- The cache of a manager that has served no request yet. -/
def ResourceCache.empty : ResourceCache :=
  { entries := [], constructed := 0 }

/-- The instance that the cache holds under a name, if any. -/
def ResourceCache.find (c : ResourceCache) (name : String) : Option Nat :=
  c.entries.lookup name

/-- Modelled from the spec: `GetCachedX(name)` "first performs a lookup in the
process-wide cache; on miss, it constructs the resource and inserts it; on hit,
it returns the existing shared instance". Returns the instance and the cache
after the request. -/
def ResourceCache.GetCached (c : ResourceCache) (name : String) : Nat × ResourceCache :=
  match c.find name with
  | some instance_ => (instance_, c)
  | none =>
    (c.constructed,
      { entries := (name, c.constructed) :: c.entries, constructed := c.constructed + 1 })

/-- The cache after a sequence of requests, served in order. -/
def ResourceCache.serve (c : ResourceCache) : List String → ResourceCache
  | [] => c
  | name :: rest => (c.GetCached name).2.serve rest

/-- The names under which the cache holds an instance. -/
def ResourceCache.names (c : ResourceCache) : List String :=
  c.entries.map Prod.fst

/-! ## Cameras -/

/-- A vector of three floats (`Vec3`, `CVec3`). -/
structure Vec3 where
  x : F32
  y : F32
  z : F32
  deriving DecidableEq, Repr

/-- The projection types that `main` of `example_11_camera_controllers` switches
over. -/
inductive eProjectionType
  | PERSPECTIVE
  | ORTHOGRAPHIC
  deriving DecidableEq, Repr

/-- The projection data of a camera, with the fields that
`example_11_camera_controllers` reads and writes (the declaration of the struct
is not among the sources). -/
structure ProjectionData where
  projection : eProjectionType
  fov : F32
  aspect : F32
  near : F32
  far : F32
  width : F32
  height : F32
  deriving DecidableEq, Repr

/-- Modelled from the spec: the camera class, which is not among the sources. It
"owns view/target/projection parameters and derives view and projection
matrices on demand". -/
structure Camera where
  position : Vec3
  target : Vec3
  up : Vec3
  proj_data : ProjectionData
  deriving DecidableEq, Repr

/-- Modelled from the spec: the matrix constructions of the math library, which
is not among the sources: the look-at view matrix "from position/target/up",
the perspective matrix from "(fov, aspect, near, far)" and the orthographic one
from "(width, height, near, far)". -/
structure MatrixOps (M : Type) where
  lookAt : Vec3 → Vec3 → Vec3 → M
  perspective : F32 → F32 → F32 → F32 → M
  orthographic : F32 → F32 → F32 → F32 → M

/-- Modelled from the spec: `SetProjectionType` selects the projection "by a
projection-type flag; switching flag values must not require reconstructing the
camera". -/
def Camera.SetProjectionType (c : Camera) (type : eProjectionType) : Camera :=
  { c with proj_data := { c.proj_data with projection := type } }

/-- Modelled from the spec: `SetProjectionData` replaces the projection
parameters of the camera. -/
def Camera.SetProjectionData (c : Camera) (data : ProjectionData) : Camera :=
  { c with proj_data := data }

/-- Modelled from the spec: `view_matrix()`, derived on demand "from
position/target/up (look-at convention)". -/
def Camera.view_matrix {M : Type} (ops : MatrixOps M) (c : Camera) : M :=
  ops.lookAt c.position c.target c.up

/-- Modelled from the spec: `proj_matrix()`, derived on demand "from either
perspective parameters (fov, aspect, near, far) or orthographic parameters
(width, height, near, far), selected by a projection-type flag". -/
def Camera.proj_matrix {M : Type} (ops : MatrixOps M) (c : Camera) : M :=
  match c.proj_data.projection with
  | .PERSPECTIVE =>
    ops.perspective c.proj_data.fov c.proj_data.aspect c.proj_data.near c.proj_data.far
  | .ORTHOGRAPHIC =>
    ops.orthographic c.proj_data.width c.proj_data.height c.proj_data.near c.proj_data.far

/-- The condition under which projection data yields an invertible projection:
a finite non-zero aspect and, in perspective mode, `0 < near < far` and
`0 < fov < 180`, in orthographic mode, `width > 0` and `height > 0`. -/
def ProjectionData.invertible (d : ProjectionData) : Bool :=
  d.aspect.isFinite && d.aspect != F32.finite 0 &&
  match d.projection with
  | .PERSPECTIVE =>
    F32.lt (F32.ofInt 0) d.near && F32.lt d.near d.far &&
    F32.lt (F32.ofInt 0) d.fov && F32.lt d.fov (F32.ofInt 180)
  | .ORTHOGRAPHIC =>
    F32.lt (F32.ofInt 0) d.width && F32.lt (F32.ofInt 0) d.height

namespace example_11_camera_controllers

/-- The constant `WINDOW_WIDTH`. -/
def WINDOW_WIDTH : Int := 800

/-- The constant `WINDOW_HEIGHT`. -/
def WINDOW_HEIGHT : Int := 600

/-- The constant `WINDOW_ASPECT`. -/
def WINDOW_ASPECT : F32 :=
  F32.div (F32.ofInt WINDOW_WIDTH) (F32.ofInt WINDOW_HEIGHT)

/-- The constant `FRUSTUM_SIZE`, `20.0F`. -/
def FRUSTUM_SIZE : F32 := F32.ofInt 20

/-- The variable `proj_data` as `main` hands it to the camera's constructor:
`defaults` is the default-constructed struct, whose projection type `main` leaves
as it is. -/
def proj_data (defaults : ProjectionData) : ProjectionData :=
  { defaults with
    fov := F32.ofInt 45,
    aspect := WINDOW_ASPECT,
    near := F32.ofRatio 1 10,
    far := F32.ofInt 1000,
    width := F32.mul FRUSTUM_SIZE WINDOW_ASPECT,
    height := FRUSTUM_SIZE }

/-- The projection data that the resize callback hands to `SetProjectionData`
for a resize event `(width, height)`; `current` is what `camera->proj_data()`
returns. -/
def resizeData (current : ProjectionData) (width height : Int) : ProjectionData :=
  let aspect_ratio := F32.div (F32.ofInt width) (F32.ofInt height)
  { current with
    aspect := aspect_ratio,
    width := F32.mul FRUSTUM_SIZE aspect_ratio,
    height := FRUSTUM_SIZE }

/-- The effect of the resize callback on the camera. -/
def resizeCallback (camera : Camera) (width height : Int) : Camera :=
  camera.SetProjectionData (resizeData camera.proj_data width height)

end example_11_camera_controllers

/-! ## include/materials/CPhongMaterial.h -/

/-- The class `CPhongMaterial`; a `std::shared_ptr< CTexture >` is either null
or refers to a texture of type `T`. The name is what the constructor receives
for the base class. -/
structure CPhongMaterial (T : Type) where
  name : String
  ambient : Vec3
  diffuse : Vec3
  specular : Vec3
  shininess : F32
  m_albedoMap : Option T
  m_specularMap : Option T
  m_normalMap : Option T

/-- The constructor of `CPhongMaterial`; in the source the three maps default to
null. -/
def CPhongMaterial.new {T : Type} (name : String) (ambientColor diffuseColor specularColor : Vec3)
    (shininess : F32) (albedoMap specularMap normalMap : Option T) : CPhongMaterial T :=
  { name := name, ambient := ambientColor, diffuse := diffuseColor, specular := specularColor,
    shininess := shininess, m_albedoMap := albedoMap, m_specularMap := specularMap,
    m_normalMap := normalMap }

/-- The member function `setAlbedoMap`. -/
def CPhongMaterial.setAlbedoMap {T : Type} (m : CPhongMaterial T) (albedoMap : Option T) :
    CPhongMaterial T :=
  { m with m_albedoMap := albedoMap }

/-- The member function `setSpecularMap`. -/
def CPhongMaterial.setSpecularMap {T : Type} (m : CPhongMaterial T) (specularMap : Option T) :
    CPhongMaterial T :=
  { m with m_specularMap := specularMap }

/-- The member function `setNormalMap`. -/
def CPhongMaterial.setNormalMap {T : Type} (m : CPhongMaterial T) (normalMap : Option T) :
    CPhongMaterial T :=
  { m with m_normalMap := normalMap }

/-- The member function `albedoMap`. -/
def CPhongMaterial.albedoMap {T : Type} (m : CPhongMaterial T) : Option T := m.m_albedoMap

/-- The member function `specularMap`. -/
def CPhongMaterial.specularMap {T : Type} (m : CPhongMaterial T) : Option T := m.m_specularMap

/-- The member function `normalMap`. -/
def CPhongMaterial.normalMap {T : Type} (m : CPhongMaterial T) : Option T := m.m_normalMap

/-! ## The options block of examples/cpp/example_05_textures_opengl.cpp

The block between `ImGui::Begin("Options")` and `ImGui::End()`, compiled when the
immediate-mode UI is enabled. -/

/-- The wrap modes of a texture: the four enumerators that the conversion
functions name, and any other value the enumeration type can hold (the
declaration of the enumeration is not among the sources). -/
inductive eTextureWrap
  | REPEAT
  | REPEAT_MIRROR
  | CLAMP_TO_EDGE
  | CLAMP_TO_BORDER
  | other (raw : Nat)
  deriving DecidableEq, Repr

namespace example_05_textures_opengl

/-- The function `get_wrapping_mode_idx`. -/
def get_wrapping_mode_idx (tex_wrap : eTextureWrap) : Nat :=
  match tex_wrap with
  | .REPEAT => 0
  | .REPEAT_MIRROR => 1
  | .CLAMP_TO_EDGE => 2
  | .CLAMP_TO_BORDER => 3
  | _ => 0

/-- The function `get_wrapping_mode_from_idx`. -/
def get_wrapping_mode_from_idx (idx : Nat) : eTextureWrap :=
  match idx with
  | 0 => .REPEAT
  | 1 => .REPEAT_MIRROR
  | 2 => .CLAMP_TO_EDGE
  | 3 => .CLAMP_TO_BORDER
  | _ => .REPEAT

/-- The array `combo_items`. -/
def combo_items : List String :=
  ["repeat", "repeat_mirror", "clamp_to_edge", "clamp_to_border"]

/-- The bounds-checked element access `combo_items.at(i)`; `none` stands for the
exception it throws when `i` is out of range. -/
def combo_items_at (i : Nat) : Option String :=
  combo_items[i]?

/-- Modelled from the spec: the sampling parameters of the texture that the
options block reads and sets (the texture class is not among the sources). `V`
is the type of the border colour. -/
structure OpenGLTexture (V : Type) where
  wrap_mode_u : eTextureWrap
  wrap_mode_v : eTextureWrap
  border_color : V

/-- Modelled from the spec: `SetWrapModeU`, a mutator applied at once; afterwards
`wrap_mode_u()` returns the mode set, and the other parameters are as before. -/
def OpenGLTexture.SetWrapModeU {V : Type} (t : OpenGLTexture V) (mode : eTextureWrap) :
    OpenGLTexture V :=
  { t with wrap_mode_u := mode }

/-- Modelled from the spec: `SetWrapModeV`, a mutator applied at once; afterwards
`wrap_mode_v()` returns the mode set, and the other parameters are as before. -/
def OpenGLTexture.SetWrapModeV {V : Type} (t : OpenGLTexture V) (mode : eTextureWrap) :
    OpenGLTexture V :=
  { t with wrap_mode_v := mode }

/-- Modelled from the spec: `SetBorderColor`, a mutator applied at once;
afterwards `border_color()` returns the colour set, and the other parameters are
as before. -/
def OpenGLTexture.SetBorderColor {V : Type} (t : OpenGLTexture V) (color : V) :
    OpenGLTexture V :=
  { t with border_color := color }

/-- The setter calls that the options block issues on the texture. -/
inductive TextureCall (V : Type)
  | SetWrapModeU (mode : eTextureWrap)
  | SetWrapModeV (mode : eTextureWrap)
  | SetBorderColor (color : V)

/-- What the UI reports for one combo box in one frame: whether `BeginCombo`
returns true, and for every item what `Selectable` returns for it. -/
structure ComboInput where
  opened : Bool
  selectable : Nat → Bool

/-- What the UI reports in one frame: for the two combo boxes, and the effect of
`ColorEdit3` on the colour `s_Color`. -/
structure OptionsInput (V : Type) where
  comboU : ComboInput
  comboV : ComboInput
  colorEdit : V → V

/-- The function-local statics of the block; `none` before the first pass
initialises them. -/
structure Statics (V : Type) where
  s_CurrentIndexU : Option Nat
  s_CurrentIndexV : Option Nat
  s_Color : Option V

/-- The statics before the first frame. -/
def Statics.initial {V : Type} : Statics V :=
  { s_CurrentIndexU := none, s_CurrentIndexV := none, s_Color := none }

/-- Whether a static index is not yet initialised or smaller than the number of
items. -/
def indexInRange : Option Nat → Bool
  | none => true
  | some index => decide (index < combo_items.length)

/-- Whether both static indices are not yet initialised or in range. -/
def Statics.inRange {V : Type} (st : Statics V) : Bool :=
  indexInRange st.s_CurrentIndexU && indexInRange st.s_CurrentIndexV

/-- The loop `for (uint32_t i = 0; i < combo_items.size(); i++)` over the items
still to visit; the state is `s_CurrentIndex`. -/
def comboLoop (input : ComboInput) : List Nat → Nat → Option Nat
  | [], s_CurrentIndex => some s_CurrentIndex
  | i :: rest, s_CurrentIndex =>
    match combo_items_at i with
    | none => none
    | some _ => comboLoop input rest (if input.selectable i then i else s_CurrentIndex)

/-- One of the two wrap-mode blocks. `static_` is the static `s_CurrentIndex`
and `current` what `texture->wrap_mode_u()` (or `wrap_mode_v()`) returns.
Delivers the new `s_CurrentIndex` and the mode passed to the setter, if the
setter is called; `none` when `combo_items.at` throws. -/
def wrapBlock (static_ : Option Nat) (current : eTextureWrap) (input : ComboInput) :
    Option (Nat × Option eTextureWrap) :=
  let s_CurrentIndex :=
    match static_ with
    | some index => index
    | none => get_wrapping_mode_idx current
  match combo_items_at s_CurrentIndex with
  | none => none
  | some _ =>
    match (if input.opened then
        comboLoop input (List.range combo_items.length) s_CurrentIndex
      else some s_CurrentIndex) with
    | none => none
    | some selected =>
      let new_wrapping_mode := get_wrapping_mode_from_idx selected
      some (selected, if new_wrapping_mode ≠ current then some new_wrapping_mode else none)

/-- The whole options block in one frame: the statics and the texture after it
and the setters it called, in order; `none` when `combo_items.at` throws.
`differs` is the comparison `!=` of the math library on colours. -/
def optionsBlock {V : Type} (differs : V → V → Bool) (st : Statics V) (texture : OpenGLTexture V)
    (input : OptionsInput V) : Option (Statics V × OpenGLTexture V × List (TextureCall V)) :=
  match wrapBlock st.s_CurrentIndexU texture.wrap_mode_u input.comboU with
  | none => none
  | some (indexU, setU) =>
    let texture1 :=
      match setU with
      | some mode => texture.SetWrapModeU mode
      | none => texture
    match wrapBlock st.s_CurrentIndexV texture1.wrap_mode_v input.comboV with
    | none => none
    | some (indexV, setV) =>
      let texture2 :=
        match setV with
        | some mode => texture1.SetWrapModeV mode
        | none => texture1
      let s_Color :=
        input.colorEdit
          (match st.s_Color with
           | some color => color
           | none => texture2.border_color)
      let setC := differs s_Color texture2.border_color
      some ({ s_CurrentIndexU := some indexU, s_CurrentIndexV := some indexV,
              s_Color := some s_Color },
            if setC then texture2.SetBorderColor s_Color else texture2,
            (match setU with
             | some mode => [TextureCall.SetWrapModeU mode]
             | none => []) ++
            (match setV with
             | some mode => [TextureCall.SetWrapModeV mode]
             | none => []) ++
            (if setC then [TextureCall.SetBorderColor s_Color] else []))

/-- A texture with a natural number for its border colour, as an instance to
run the block on. -/
def exampleTexture : OpenGLTexture Nat :=
  { wrap_mode_u := .REPEAT, wrap_mode_v := .CLAMP_TO_EDGE, border_color := 7 }

/-- A frame in which the wrap-u combo is open and its third item is clicked, the
wrap-v combo is closed and the colour is edited. -/
def exampleInput : OptionsInput Nat :=
  { comboU := { opened := true, selectable := fun i => i == 2 },
    comboV := { opened := false, selectable := fun _ => false },
    colorEdit := fun c => c + 1 }

/-- The comparison `!=` on colours that are natural numbers. -/
def exampleDiffers (a b : Nat) : Bool := a != b

/-- The options block over consecutive frames: the statics and the texture after
the last frame; `none` when `combo_items.at` throws in some frame. -/
def optionsFrames {V : Type} (differs : V → V → Bool) :
    Statics V → OpenGLTexture V → List (OptionsInput V) → Option (Statics V × OpenGLTexture V)
  | st, texture, [] => some (st, texture)
  | st, texture, input :: rest =>
    match optionsBlock differs st texture input with
    | none => none
    | some (st1, texture1, _) => optionsFrames differs st1 texture1 rest

end example_05_textures_opengl

/-! ## Geometries -/

theorem monitor_append {σ : Type} (step : σ → Call → Option σ) (s : σ) (a b : List Call) :
    monitor step s (a ++ b) = (monitor step s a).bind (fun s' => monitor step s' b) := by
  induction a generalizing s with
  | nil => rfl
  | cons c t ih =>
    simp only [List.cons_append, monitor]
    cases step s c with
    | none => rfl
    | some s' => exact ih s'

theorem monitor_skip {σ : Type} (step : σ → Call → Option σ) (s : σ) (l : List Call)
    (h : ∀ c ∈ l, step s c = some s) : monitor step s l = some s := by
  induction l with
  | nil => rfl
  | cons c t ih =>
    have hc : step s c = some s := h c (List.mem_cons_self c t)
    simp only [monitor, hc]
    exact ih (fun d hd => h d (List.mem_cons_of_mem c hd))

/-! ### What the loops and `main` functions produce -/

theorem sample_texture_render_ok (a : sample_texture.Assets)
    (hs : a.textureSmiley = true) (hp : a.shader = true) :
    sample_texture.render a sample_texture._varray =
      { calls := [.Bind .program, .Bind .vertexArray, .Bind (.texture "img_smiley"),
                  .DrawElements .GL_TRIANGLES 6,
                  .Unbind (.texture "img_smiley"), .Unbind .vertexArray, .Unbind .program],
        fault := none } := by
  simp [sample_texture.render, hs, hp, sample_texture._varray, VertexArray.SetIndexBuffer,
    sample_texture._ibuffer, toGLint]

theorem sample_texture_main_ok (a : sample_texture.Assets) (frames : List Bool)
    (hc : a.textureContainer = true) :
    sample_texture.main a frames =
      Run.after [.NewWindow, .GetCachedTextureData "img_container",
                 .GetCachedTextureData "img_smiley", .NewTexture "img_container",
                 .EngineAssert true, .NewTexture "img_smiley", .EngineAssert true,
                 .NewVertexBuffer 112, .NewIndexBuffer 6, .NewVertexArray,
                 .AddVertexBuffer, .SetIndexBuffer, .NewProgram "basic2d_textures"]
        (sample_texture.loop a sample_texture._varray frames) := by
  simp [sample_texture.main, ENGINE_ASSERT, Run.after, hc, sample_texture.sizeof_bufferData]

theorem sample_texture_loop_frames (a : sample_texture.Assets)
    (hs : a.textureSmiley = true) (hp : a.shader = true) (frames : List Bool) :
    monitor frameStep false (sample_texture.loop a sample_texture._varray frames).trace =
      some (frames.any id) := by
  induction frames with
  | nil => rfl
  | cons e rest ih =>
    cases e with
    | true => rfl
    | false =>
      simp only [sample_texture.loop, sample_texture_render_ok a hs hp, Run.after]
      simpa [monitor, frameStep] using ih

theorem example_11_loop_in_frame (n : Nat) (frames : List Bool) :
    monitor frameStep true (example_11_camera_controllers.loop n frames) ≠ some false := by
  cases frames with
  | nil => simp [example_11_camera_controllers.loop, monitor]
  | cons e rest =>
    cases e <;>
      simp [example_11_camera_controllers.loop, example_11_camera_controllers.frame, monitor,
        frameStep]

theorem example_11_loop_frames (n : Nat) (frames : List Bool) :
    monitor frameStep false (example_11_camera_controllers.loop n frames) = some false ↔
      ∀ e ∈ frames, e = false := by
  induction frames with
  | nil => simp [example_11_camera_controllers.loop, monitor]
  | cons e rest ih =>
    cases e with
    | true =>
      have h := example_11_loop_in_frame n rest
      simpa [example_11_camera_controllers.loop, example_11_camera_controllers.frame, monitor,
        frameStep] using h
    | false =>
      simpa [example_11_camera_controllers.loop, example_11_camera_controllers.frame,
        example_11_camera_controllers.uniforms, monitor, frameStep] using ih

theorem example_05_textures_pollEvents_mem (keys : List Key) (c : Call)
    (h : c ∈ example_05_textures.pollEvents keys) : c = .RequestClose := by
  induction keys with
  | nil => simp [example_05_textures.pollEvents] at h
  | cons k rest ih =>
    simp only [example_05_textures.pollEvents, example_05_textures.keyboardCallback,
      List.mem_append] at h
    rcases h with h | h
    · split at h <;> simp_all
    · exact ih h

theorem example_05_textures_opengl_pollEvents_mem (keys : List Key) (c : Call)
    (h : c ∈ example_05_textures_opengl.pollEvents keys) : c = .RequestClose := by
  induction keys with
  | nil => simp [example_05_textures_opengl.pollEvents] at h
  | cons k rest ih =>
    simp only [example_05_textures_opengl.pollEvents,
      example_05_textures_opengl.keyboardCallback, List.mem_append] at h
    rcases h with h | h
    · split at h <;> simp_all
    · exact ih h

theorem example_05_textures_frame_monitor {σ : Type} (step : σ → Call → Option σ) (s s1 : σ)
    (hb : step s .Begin = some s1) (hr : step s1 .RequestClose = some s1) (keys : List Key) :
    monitor step s (example_05_textures.frame keys) =
      monitor step s1
        [.Bind .program, .Bind (.texture "images/awesomeface.png"), .Bind .vertexArray,
         .DrawElements .GL_TRIANGLES 6,
         .Unbind .vertexArray, .Unbind (.texture "images/awesomeface.png"), .Unbind .program,
         .End] := by
  have hp : monitor step s1 (example_05_textures.pollEvents keys) = some s1 :=
    monitor_skip step s1 _ (fun c hc => by
      rw [example_05_textures_pollEvents_mem keys c hc]; exact hr)
  have h6 : toGLint example_05_textures.NUM_VERTICES = 6 := by decide
  simp only [example_05_textures.frame, monitor_append, h6, example_05_textures.IMAGE_PATH]
  simp [monitor, hb, hp]

theorem example_05_textures_opengl_frame_monitor {σ : Type} (step : σ → Call → Option σ)
    (s s1 : σ) (hb : step s .Begin = some s1) (hr : step s1 .RequestClose = some s1)
    (keys : List Key) :
    monitor step s (example_05_textures_opengl.frame keys) =
      monitor step s1
        [.Bind .program, .Bind (.texture "images/container.jpg"), .Bind .vertexArray,
         .DrawElements .GL_TRIANGLES 6,
         .Unbind .vertexArray, .Unbind (.texture "images/container.jpg"), .Unbind .program,
         .End] := by
  have hp : monitor step s1 (example_05_textures_opengl.pollEvents keys) = some s1 :=
    monitor_skip step s1 _ (fun c hc => by
      rw [example_05_textures_opengl_pollEvents_mem keys c hc]; exact hr)
  have h6 : toGLint example_05_textures_opengl.NUM_INDICES = 6 := by decide
  simp only [example_05_textures_opengl.frame, monitor_append, h6,
    example_05_textures_opengl.IMAGE_PATH]
  simp [monitor, hb, hp]

theorem example_05_textures_loop_monitor {σ : Type} (step : σ → Call → Option σ)
    (inv : σ → Prop)
    (hframe : ∀ s keys, inv s →
      ∃ s', monitor step s (example_05_textures.frame keys) = some s' ∧ inv s')
    (frames : List (List Key)) (s : σ) (hs : inv s) :
    ∃ s', monitor step s (example_05_textures.loop frames) = some s' ∧ inv s' := by
  induction frames generalizing s with
  | nil => exact ⟨s, rfl, hs⟩
  | cons keys rest ih =>
    obtain ⟨s1, h1, hi1⟩ := hframe s keys hs
    obtain ⟨s2, h2, hi2⟩ := ih s1 hi1
    exact ⟨s2, by simp [example_05_textures.loop, monitor_append, h1, h2], hi2⟩

theorem example_05_textures_opengl_loop_monitor {σ : Type} (step : σ → Call → Option σ)
    (inv : σ → Prop)
    (hframe : ∀ s keys, inv s →
      ∃ s', monitor step s (example_05_textures_opengl.frame keys) = some s' ∧ inv s')
    (frames : List (List Key)) (s : σ) (hs : inv s) :
    ∃ s', monitor step s (example_05_textures_opengl.loop frames) = some s' ∧ inv s' := by
  induction frames generalizing s with
  | nil => exact ⟨s, rfl, hs⟩
  | cons keys rest ih =>
    obtain ⟨s1, h1, hi1⟩ := hframe s keys hs
    obtain ⟨s2, h2, hi2⟩ := ih s1 hi1
    exact ⟨s2, by simp [example_05_textures_opengl.loop, monitor_append, h1, h2], hi2⟩

theorem example_11_loop_monitor {σ : Type} (step : σ → Call → Option σ) (inv : σ → Prop)
    (n : Nat)
    (hframe : ∀ s e, inv s →
      ∃ s', monitor step s (example_11_camera_controllers.frame n e) = some s' ∧ inv s')
    (frames : List Bool) (s : σ) (hs : inv s) :
    ∃ s', monitor step s (example_11_camera_controllers.loop n frames) = some s' ∧ inv s' := by
  induction frames generalizing s with
  | nil => exact ⟨s, rfl, hs⟩
  | cons e rest ih =>
    obtain ⟨s1, h1, hi1⟩ := hframe s e hs
    obtain ⟨s2, h2, hi2⟩ := ih s1 hi1
    exact ⟨s2, by simp [example_11_camera_controllers.loop, monitor_append, h1, h2], hi2⟩

theorem sample_texture_loop_monitor {σ : Type} (step : σ → Call → Option σ) (inv : σ → Prop)
    (a : sample_texture.Assets) (hs : a.textureSmiley = true) (hp : a.shader = true)
    (hesc : ∀ s, inv s → ∃ s', monitor step s [.Begin] = some s' ∧ inv s')
    (hframe : ∀ s, inv s →
      ∃ s', monitor step s
        [.Begin, .Bind .program, .Bind .vertexArray, .Bind (.texture "img_smiley"),
         .DrawElements .GL_TRIANGLES 6,
         .Unbind (.texture "img_smiley"), .Unbind .vertexArray, .Unbind .program,
         .End] = some s' ∧ inv s')
    (frames : List Bool) (s : σ) (hi : inv s) :
    ∃ s', monitor step s (sample_texture.loop a sample_texture._varray frames).trace = some s' ∧
      inv s' := by
  induction frames generalizing s with
  | nil => exact ⟨s, rfl, hi⟩
  | cons e rest ih =>
    cases e with
    | true => exact hesc s hi
    | false =>
      obtain ⟨s1, h1, hi1⟩ := hframe s hi
      obtain ⟨s2, h2, hi2⟩ := ih s1 hi1
      refine ⟨s2, ?_, hi2⟩
      simp only [sample_texture.loop, sample_texture_render_ok a hs hp, Run.after]
      have := monitor_append step s
        [.Begin, .Bind .program, .Bind .vertexArray, .Bind (.texture "img_smiley"),
         .DrawElements .GL_TRIANGLES 6,
         .Unbind (.texture "img_smiley"), .Unbind .vertexArray, .Unbind .program,
         .End] (sample_texture.loop a sample_texture._varray rest).trace
      simp only [h1, Option.bind, h2] at this
      simpa using this

/-! ### C1 -/

/-- C1, as stated, fails: when the escape key is down in the first iteration,
`sample_texture` leaves the loop by `break` right after `begin()`, and
`example_11_camera_controllers` goes on to the loop test by `continue` right after
`Begin()` and `RequestClose()`; in both runs the frame is begun and never ended. -/
theorem C1_escape_leaves_frame_open :
    ¬ framesClosed
        (sample_texture.main
          { textureContainer := true, textureSmiley := true, shader := true } [true]).trace ∧
    ¬ framesClosed (example_11_camera_controllers.main 36 [true]).trace := by
  constructor <;> decide

/-- C1, amended: in the frame loops of `sample_texture` (with its textures and
shader retrieved) and of `example_11_camera_controllers`, every `Begin` is
followed by its `End` before the next `Begin` and before the loop is left exactly
when the escape key is down in no iteration; an iteration that sees it down
leaves its frame begun and not ended. -/
theorem C1_frames_closed_iff_no_escape (a : sample_texture.Assets) (n : Nat)
    (frames : List Bool) (hc : a.textureContainer = true) (hs : a.textureSmiley = true)
    (hp : a.shader = true) :
    (framesClosed (sample_texture.main a frames).trace ↔ ∀ e ∈ frames, e = false) ∧
    (framesClosed (example_11_camera_controllers.main n frames).trace ↔
      ∀ e ∈ frames, e = false) := by
  constructor
  · rw [sample_texture_main_ok a frames hc]
    unfold framesClosed
    simp only [Run.after, monitor_append]
    simp [monitor, frameStep, sample_texture_loop_frames a hs hp]
  · unfold framesClosed example_11_camera_controllers.main
    simp only [monitor_append]
    simpa [monitor, frameStep] using example_11_loop_frames n frames

/-- Witness of C1: three iterations without the escape key, all assets present. -/
theorem C1_frames_closed_iff_no_escape_witness :
    (framesClosed
        (sample_texture.main
          { textureContainer := true, textureSmiley := true, shader := true }
          [false, false, false]).trace ↔ ∀ e ∈ [false, false, false], e = false) ∧
    (framesClosed (example_11_camera_controllers.main 36 [false, false, false]).trace ↔
      ∀ e ∈ [false, false, false], e = false) :=
  C1_frames_closed_iff_no_escape
    { textureContainer := true, textureSmiley := true, shader := true } 36
    [false, false, false] rfl rfl rfl

/-! ### C2 -/

theorem example_05_textures_opengl_main_monitor {σ : Type} (step : σ → Call → Option σ)
    (inv : σ → Prop) (s : σ) (hs : inv s)
    (hsetup : ∀ c ∈ [Call.NewWindow, .RegisterCallback, .NewProgram "", .Build, .LogError,
      .NewVertexBuffer 64, .NewIndexBuffer 6, .NewVertexArray, .AddVertexBuffer,
      .SetIndexBuffer, .NewTexture "images/container.jpg"], step s c = some s)
    (hvalid : step s .IsValid = some s)
    (hframe : ∀ s keys, inv s →
      ∃ s', monitor step s (example_05_textures_opengl.frame keys) = some s' ∧ inv s')
    (v : Bool) (frames : List (List Key)) :
    ∃ s', monitor step s (example_05_textures_opengl.main v frames).trace = some s' ∧
      inv s' := by
  have h1 : monitor step s [Call.NewWindow, .RegisterCallback, .NewProgram "", .Build,
      .IsValid] = some s := by
    simp only [List.mem_cons, List.mem_singleton, forall_eq_or_imp, forall_eq] at hsetup
    simp [monitor, hsetup, hvalid]
  cases v with
  | false =>
    refine ⟨s, ?_, hs⟩
    simp only [List.mem_cons, List.mem_singleton, forall_eq_or_imp, forall_eq] at hsetup
    simp [example_05_textures_opengl.main, Run.after, monitor, hsetup, hvalid]
  | true =>
    obtain ⟨s2, h2, hi2⟩ := example_05_textures_opengl_loop_monitor step inv hframe frames s hs
    refine ⟨s2, ?_, hi2⟩
    have h3 : monitor step s [Call.NewVertexBuffer 64, .NewIndexBuffer 6, .NewVertexArray,
        .AddVertexBuffer, .SetIndexBuffer, .NewTexture "images/container.jpg"] = some s := by
      simp only [List.mem_cons, List.mem_singleton, forall_eq_or_imp, forall_eq] at hsetup
      simp [monitor, hsetup]
    show monitor step s
      ([Call.NewWindow, .RegisterCallback, .NewProgram "", .Build, .IsValid] ++
        ([Call.NewVertexBuffer 64, .NewIndexBuffer 6, .NewVertexArray,
          .AddVertexBuffer, .SetIndexBuffer, .NewTexture "images/container.jpg"] ++
          example_05_textures_opengl.loop frames)) = some s2
    rw [monitor_append, h1]
    show monitor step s
      ([Call.NewVertexBuffer 64, .NewIndexBuffer 6, .NewVertexArray,
        .AddVertexBuffer, .SetIndexBuffer, .NewTexture "images/container.jpg"] ++
        example_05_textures_opengl.loop frames) = some s2
    rw [monitor_append, h3]
    exact h2

theorem example_05_textures_main_monitor {σ : Type} (step : σ → Call → Option σ)
    (inv : σ → Prop) (s : σ) (hs : inv s)
    (hsetup : ∀ c ∈ [Call.NewWindow, .RegisterCallback, .NewProgram "basic_2d",
      .NewVertexBuffer 112, .NewIndexBuffer 6, .NewVertexArray, .AddVertexBuffer,
      .SetIndexBuffer, .NewTexture "images/awesomeface.png"], step s c = some s)
    (hframe : ∀ s keys, inv s →
      ∃ s', monitor step s (example_05_textures.frame keys) = some s' ∧ inv s')
    (frames : List (List Key)) :
    ∃ s', monitor step s (example_05_textures.main frames).trace = some s' ∧ inv s' := by
  obtain ⟨s2, h2, hi2⟩ := example_05_textures_loop_monitor step inv hframe frames s hs
  refine ⟨s2, ?_, hi2⟩
  show monitor step s
    ([Call.NewWindow, .RegisterCallback, .NewProgram "basic_2d",
      .NewVertexBuffer 112, .NewIndexBuffer 6, .NewVertexArray, .AddVertexBuffer,
      .SetIndexBuffer, .NewTexture "images/awesomeface.png"] ++
      example_05_textures.loop frames) = some s2
  rw [monitor_append, monitor_skip step s _ hsetup]
  exact h2

theorem example_11_main_monitor {σ : Type} (step : σ → Call → Option σ)
    (inv : σ → Prop) (s : σ) (hs : inv s) (n : Nat)
    (hsetup : ∀ c ∈ [Call.NewWindow, .RegisterCallback, .NewProgram "basicPhong", .CreateBox],
      step s c = some s)
    (hframe : ∀ s e, inv s →
      ∃ s', monitor step s (example_11_camera_controllers.frame n e) = some s' ∧ inv s')
    (frames : List Bool) :
    ∃ s', monitor step s (example_11_camera_controllers.main n frames).trace = some s' ∧
      inv s' := by
  obtain ⟨s2, h2, hi2⟩ := example_11_loop_monitor step inv n hframe frames s hs
  refine ⟨s2, ?_, hi2⟩
  have h1 : monitor step s [Call.NewWindow, .RegisterCallback, .NewProgram "basicPhong",
      .CreateBox, .RegisterCallback, .RegisterCallback, .RegisterCallback, .RegisterCallback,
      .RegisterCallback] = some s :=
    monitor_skip step s _ (fun c hc => hsetup c (by
      simp only [List.mem_cons, List.mem_singleton] at hc ⊢
      tauto))
  show monitor step s
    ([Call.NewWindow, .RegisterCallback, .NewProgram "basicPhong",
      .CreateBox, .RegisterCallback, .RegisterCallback, .RegisterCallback, .RegisterCallback,
      .RegisterCallback] ++ example_11_camera_controllers.loop n frames) = some s2
  rw [monitor_append, h1]
  exact h2

theorem sample_texture_main_monitor {σ : Type} (step : σ → Call → Option σ)
    (inv : σ → Prop) (s : σ) (hi : inv s)
    (a : sample_texture.Assets) (hs : a.textureSmiley = true) (hp : a.shader = true)
    (hsetup : ∀ c ∈ [Call.NewWindow, .GetCachedTextureData "img_container",
      .GetCachedTextureData "img_smiley", .NewTexture "img_container",
      .EngineAssert true, .EngineAssert false, .NewTexture "img_smiley",
      .NewVertexBuffer 112, .NewIndexBuffer 6, .NewVertexArray,
      .AddVertexBuffer, .SetIndexBuffer, .NewProgram "basic2d_textures"], step s c = some s)
    (hesc : ∀ s, inv s → ∃ s', monitor step s [.Begin] = some s' ∧ inv s')
    (hframe : ∀ s, inv s →
      ∃ s', monitor step s
        [.Begin, .Bind .program, .Bind .vertexArray, .Bind (.texture "img_smiley"),
         .DrawElements .GL_TRIANGLES 6,
         .Unbind (.texture "img_smiley"), .Unbind .vertexArray, .Unbind .program,
         .End] = some s' ∧ inv s')
    (frames : List Bool) :
    ∃ s', monitor step s (sample_texture.main a frames).trace = some s' ∧ inv s' := by
  cases hc : a.textureContainer with
  | false =>
    refine ⟨s, ?_, hi⟩
    have h1 : (sample_texture.main a frames).trace =
        [Call.NewWindow, .GetCachedTextureData "img_container",
         .GetCachedTextureData "img_smiley", .NewTexture "img_container",
         .EngineAssert false] := by
      simp [sample_texture.main, ENGINE_ASSERT, Run.after, hc]
    rw [h1]
    exact monitor_skip step s _ (fun c hc => hsetup c (by
      simp only [List.mem_cons, List.mem_singleton] at hc ⊢
      tauto))
  | true =>
    obtain ⟨s2, h2, hi2⟩ :=
      sample_texture_loop_monitor step inv a hs hp hesc hframe frames s hi
    refine ⟨s2, ?_, hi2⟩
    rw [sample_texture_main_ok a frames hc]
    simp only [Run.after]
    rw [monitor_append, monitor_skip step s _ (fun c hc => hsetup c (by
      simp only [List.mem_cons, List.mem_singleton] at hc ⊢
      tauto))]
    exact h2

theorem unbindsReverseBinds_of_monitor (t : List Call)
    (h : ∃ s', monitor reverseStep { bound := [], drawn := false } t = some s' ∧
      s' = { bound := [], drawn := false }) :
    unbindsReverseBinds t = true := by
  obtain ⟨s', h1, h2⟩ := h
  subst h2
  simp [unbindsReverseBinds, h1]

/-- C2: in every frame of every example that draws, the resources bound before
the indexed draw are unbound after it in exactly the reverse order, and none is
left bound when the frame ends (`sample_texture` with its smiley texture and
shader retrieved, so that its frame body runs through). -/
theorem C2_unbinds_reverse_binds (v : Bool) (keys : List (List Key))
    (a : sample_texture.Assets) (n : Nat) (frames : List Bool)
    (hs : a.textureSmiley = true) (hp : a.shader = true) :
    unbindsReverseBinds (example_05_textures_opengl.main v keys).trace = true ∧
    unbindsReverseBinds (example_05_textures.main keys).trace = true ∧
    unbindsReverseBinds (sample_texture.main a frames).trace = true ∧
    unbindsReverseBinds (example_11_camera_controllers.main n frames).trace = true := by
  refine ⟨?_, ?_, ?_, ?_⟩ <;> apply unbindsReverseBinds_of_monitor
  · apply example_05_textures_opengl_main_monitor reverseStep
      (fun s => s = { bound := [], drawn := false }) { bound := [], drawn := false } rfl
    · decide
    · rfl
    · intro s keys hs
      subst hs
      exact ⟨_, (example_05_textures_opengl_frame_monitor reverseStep
        { bound := [], drawn := false } { bound := [], drawn := false } rfl rfl keys).trans
        (by decide), rfl⟩
  · apply example_05_textures_main_monitor reverseStep
      (fun s => s = { bound := [], drawn := false }) { bound := [], drawn := false } rfl
    · decide
    · intro s keys hs
      subst hs
      exact ⟨_, (example_05_textures_frame_monitor reverseStep
        { bound := [], drawn := false } { bound := [], drawn := false } rfl rfl keys).trans
        (by decide), rfl⟩
  · apply sample_texture_main_monitor reverseStep
      (fun s => s = { bound := [], drawn := false }) { bound := [], drawn := false } rfl a hs hp
    · decide
    · intro s hs
      subst hs
      exact ⟨_, by decide, rfl⟩
    · intro s hs
      subst hs
      exact ⟨_, by decide, rfl⟩
  · apply example_11_main_monitor reverseStep
      (fun s => s = { bound := [], drawn := false }) { bound := [], drawn := false } rfl
    · decide
    · intro s e hs
      subst hs
      cases e <;> exact ⟨_, by
        simp [example_11_camera_controllers.frame, example_11_camera_controllers.uniforms,
          monitor, reverseStep], rfl⟩

/-- Witness of C2: two frames of every example, all assets present. -/
theorem C2_unbinds_reverse_binds_witness :
    unbindsReverseBinds (example_05_textures_opengl.main true [[], [.KEY_ESCAPE]]).trace = true ∧
    unbindsReverseBinds (example_05_textures.main [[], [.KEY_ESCAPE]]).trace = true ∧
    unbindsReverseBinds
      (sample_texture.main { textureContainer := true, textureSmiley := true, shader := true }
        [false, true]).trace = true ∧
    unbindsReverseBinds (example_11_camera_controllers.main 36 [false, true]).trace = true :=
  C2_unbinds_reverse_binds true [[], [.KEY_ESCAPE]]
    { textureContainer := true, textureSmiley := true, shader := true } 36 [false, true]
    rfl rfl

/-! ### C3 -/

theorem boundAtDraw_of_monitor (needed : List Resource) (t : List Call)
    (h : ∃ s', monitor (drawStep needed) { bound := [], drawn := false } t = some s' ∧
      s'.bound = []) :
    boundAtDraw needed t = true := by
  obtain ⟨s', h1, _⟩ := h
  simp [boundAtDraw, h1]

theorem drawStep_Begin (needed : List Resource) (s : BindState) (hs : s.bound = []) :
    drawStep needed s .Begin = some { bound := [], drawn := false } := by
  simp [drawStep, hs]

/-- C3: in every frame of every example that draws, the shader program, the
vertex array and, where the example uses one, the texture are all bound when
the indexed draw is issued: every bind of the frame precedes the draw and no
unbind of the frame precedes it (`sample_texture` with its smiley texture and
shader retrieved, so that its frame body runs through). -/
theorem C3_resources_bound_at_draw (v : Bool) (keys : List (List Key))
    (a : sample_texture.Assets) (n : Nat) (frames : List Bool)
    (hs : a.textureSmiley = true) (hp : a.shader = true) :
    boundAtDraw [.program, .texture "images/container.jpg", .vertexArray]
      (example_05_textures_opengl.main v keys).trace = true ∧
    boundAtDraw [.program, .texture "images/awesomeface.png", .vertexArray]
      (example_05_textures.main keys).trace = true ∧
    boundAtDraw [.program, .texture "img_smiley", .vertexArray]
      (sample_texture.main a frames).trace = true ∧
    boundAtDraw [.program, .vertexArray]
      (example_11_camera_controllers.main n frames).trace = true := by
  refine ⟨?_, ?_, ?_, ?_⟩ <;> apply boundAtDraw_of_monitor
  · apply example_05_textures_opengl_main_monitor (drawStep _)
      (fun s => s.bound = []) { bound := [], drawn := false } rfl
    · decide
    · rfl
    · intro s keys hs
      exact ⟨{ bound := [], drawn := true },
        (example_05_textures_opengl_frame_monitor (drawStep _) s
          { bound := [], drawn := false } (drawStep_Begin _ s hs) rfl keys).trans
        (by decide), rfl⟩
  · apply example_05_textures_main_monitor (drawStep _)
      (fun s => s.bound = []) { bound := [], drawn := false } rfl
    · decide
    · intro s keys hs
      exact ⟨{ bound := [], drawn := true },
        (example_05_textures_frame_monitor (drawStep _) s
          { bound := [], drawn := false } (drawStep_Begin _ s hs) rfl keys).trans
        (by decide), rfl⟩
  · apply sample_texture_main_monitor (drawStep _)
      (fun s => s.bound = []) { bound := [], drawn := false } rfl a hs hp
    · decide
    · intro s hs
      exact ⟨{ bound := [], drawn := false }, by simp [monitor, drawStep_Begin _ s hs], rfl⟩
    · intro s hs
      refine ⟨{ bound := [], drawn := true }, ?_, rfl⟩
      simp only [monitor, drawStep_Begin _ s hs]
      decide
  · apply example_11_main_monitor (drawStep _)
      (fun s => s.bound = []) { bound := [], drawn := false } rfl
    · decide
    · intro s e hs
      cases e
      · refine ⟨{ bound := [], drawn := true }, ?_, rfl⟩
        simp [example_11_camera_controllers.frame, example_11_camera_controllers.uniforms,
          monitor, drawStep, hs]
      · refine ⟨{ bound := [], drawn := false }, ?_, rfl⟩
        simp [example_11_camera_controllers.frame, monitor, drawStep, hs]

/-- Witness of C3: two frames of every example, all assets present. -/
theorem C3_resources_bound_at_draw_witness :
    boundAtDraw [.program, .texture "images/container.jpg", .vertexArray]
      (example_05_textures_opengl.main true [[], [.KEY_ESCAPE]]).trace = true ∧
    boundAtDraw [.program, .texture "images/awesomeface.png", .vertexArray]
      (example_05_textures.main [[], [.KEY_ESCAPE]]).trace = true ∧
    boundAtDraw [.program, .texture "img_smiley", .vertexArray]
      (sample_texture.main { textureContainer := true, textureSmiley := true, shader := true }
        [false, true]).trace = true ∧
    boundAtDraw [.program, .vertexArray]
      (example_11_camera_controllers.main 36 [false, true]).trace = true :=
  C3_resources_bound_at_draw true [[], [.KEY_ESCAPE]]
    { textureContainer := true, textureSmiley := true, shader := true } 36 [false, true]
    rfl rfl

/-! ### C4 -/

theorem bindOrder_of_monitor (order : List Resource) (t : List Call)
    (h : ∃ s', monitor (orderStep order) [] t = some s' ∧ True) :
    bindOrder order t = true := by
  obtain ⟨s', h1, _⟩ := h
  simp [bindOrder, h1]

/-- C4, as stated, fails: the frame of `sample_texture` binds the shader, then
the vertex array, then the texture, so at its draw the binds are not in the order
shader, texture, vertex array. -/
theorem C4_sample_texture_binds_array_before_texture :
    ¬ bindOrder [.program, .texture "img_smiley", .vertexArray]
        (sample_texture.main
          { textureContainer := true, textureSmiley := true, shader := true } [false]).trace
        = true := by
  decide

/-- C4, amended: `example_05_textures_opengl` and `example_05_textures` bind the
program, then the texture, then the vertex array and only then draw;
`sample_texture` (with its smiley texture and shader retrieved) binds the shader,
then the vertex array, then the texture and only then draws. In all three the
shader comes first and the draw follows the three binds. -/
theorem C4_bind_order (v : Bool) (keys : List (List Key))
    (a : sample_texture.Assets) (frames : List Bool)
    (hs : a.textureSmiley = true) (hp : a.shader = true) :
    bindOrder [.program, .texture "images/container.jpg", .vertexArray]
      (example_05_textures_opengl.main v keys).trace = true ∧
    bindOrder [.program, .texture "images/awesomeface.png", .vertexArray]
      (example_05_textures.main keys).trace = true ∧
    bindOrder [.program, .vertexArray, .texture "img_smiley"]
      (sample_texture.main a frames).trace = true := by
  refine ⟨?_, ?_, ?_⟩ <;> apply bindOrder_of_monitor
  · apply example_05_textures_opengl_main_monitor (orderStep _) (fun _ => True) [] trivial
    · decide
    · rfl
    · intro s keys _
      exact ⟨[.program, .texture "images/container.jpg", .vertexArray],
        (example_05_textures_opengl_frame_monitor (orderStep _) s [] rfl rfl keys).trans
        (by decide), trivial⟩
  · apply example_05_textures_main_monitor (orderStep _) (fun _ => True) [] trivial
    · decide
    · intro s keys _
      exact ⟨[.program, .texture "images/awesomeface.png", .vertexArray],
        (example_05_textures_frame_monitor (orderStep _) s [] rfl rfl keys).trans
        (by decide), trivial⟩
  · apply sample_texture_main_monitor (orderStep _) (fun _ => True) [] trivial a hs hp
    · decide
    · intro s _
      exact ⟨[], rfl, trivial⟩
    · intro s _
      refine ⟨[.program, .vertexArray, .texture "img_smiley"], ?_, trivial⟩
      have hb : orderStep [.program, .vertexArray, .texture "img_smiley"] s .Begin = some [] :=
        rfl
      simp only [monitor, hb]
      decide

/-- Witness of C4: two frames of every textured example, all assets present. -/
theorem C4_bind_order_witness :
    bindOrder [.program, .texture "images/container.jpg", .vertexArray]
      (example_05_textures_opengl.main true [[], [.KEY_ESCAPE]]).trace = true ∧
    bindOrder [.program, .texture "images/awesomeface.png", .vertexArray]
      (example_05_textures.main [[], [.KEY_ESCAPE]]).trace = true ∧
    bindOrder [.program, .vertexArray, .texture "img_smiley"]
      (sample_texture.main { textureContainer := true, textureSmiley := true, shader := true }
        [false, true]).trace = true :=
  C4_bind_order true [[], [.KEY_ESCAPE]]
    { textureContainer := true, textureSmiley := true, shader := true } [false, true] rfl rfl

/-! ### C5 -/

theorem example_05_textures_opengl_loop_count (c : Call) (hc : c ≠ .RequestClose)
    (frames : List (List Key)) :
    List.count c (example_05_textures_opengl.loop frames) =
      List.count c (example_05_textures_opengl.frame []) * frames.length := by
  induction frames with
  | nil => simp [example_05_textures_opengl.loop]
  | cons keys rest ih =>
    have hp : List.count c (example_05_textures_opengl.pollEvents keys) = 0 :=
      List.count_eq_zero.mpr (fun h =>
        hc (example_05_textures_opengl_pollEvents_mem keys c h))
    have hf : List.count c (example_05_textures_opengl.frame keys) =
        List.count c (example_05_textures_opengl.frame []) := by
      simp only [example_05_textures_opengl.frame, List.count_append, hp,
        example_05_textures_opengl.pollEvents, List.count_nil]
    simp only [example_05_textures_opengl.loop, List.count_append, hf, ih, List.length_cons,
      Nat.mul_succ]
    omega

theorem oneDrawPerFrame_of_monitor (t : List Call)
    (h : ∃ s', monitor drawCountStep 0 t = some s' ∧ True) :
    oneDrawPerFrame t = true := by
  obtain ⟨s', h1, _⟩ := h
  simp [oneDrawPerFrame, h1]

/-- C6: in `example_05_textures_opengl` with a program that built successfully,
every frame between `Begin()` and `End()` submits exactly one indexed draw, which
draws 6 indices as a triangle list; a run of `k` frames begins and ends `k`
frames and submits `k` such draws. -/
theorem C6_one_draw_of_six_indices_per_frame (frames : List (List Key)) :
    oneDrawPerFrame (example_05_textures_opengl.main true frames).trace = true ∧
    List.count (Call.DrawElements .GL_TRIANGLES 6)
      (example_05_textures_opengl.main true frames).trace = frames.length ∧
    List.count Call.Begin (example_05_textures_opengl.main true frames).trace = frames.length ∧
    List.count Call.End (example_05_textures_opengl.main true frames).trace = frames.length := by
  refine ⟨?_, ?_, ?_, ?_⟩
  · apply oneDrawPerFrame_of_monitor
    apply example_05_textures_opengl_main_monitor drawCountStep (fun _ => True) 0 trivial
    · decide
    · rfl
    · intro s keys _
      exact ⟨1, (example_05_textures_opengl_frame_monitor drawCountStep s 0 rfl rfl keys).trans
        (by decide), trivial⟩
  · have h := example_05_textures_opengl_loop_count (.DrawElements .GL_TRIANGLES 6)
      (by decide) frames
    have h1 : List.count (Call.DrawElements .GL_TRIANGLES 6)
        (example_05_textures_opengl.frame []) = 1 := by decide
    simp [example_05_textures_opengl.main, Run.after, List.count_append, h, h1]
  · have h := example_05_textures_opengl_loop_count .Begin (by decide) frames
    have h1 : List.count Call.Begin (example_05_textures_opengl.frame []) = 1 := by decide
    simp [example_05_textures_opengl.main, Run.after, List.count_append, h, h1]
  · have h := example_05_textures_opengl_loop_count .End (by decide) frames
    have h1 : List.count Call.End (example_05_textures_opengl.frame []) = 1 := by decide
    simp [example_05_textures_opengl.main, Run.after, List.count_append, h, h1]

/-! ### C7 -/

/-- C7, evaluated on the code: after one frame `example_05_textures`,
`example_11_camera_controllers` and `sample_texture` have bound their program
without any validity check before it, and `sample_texture` calls `bind()` through
the null pointer when the shader cache has no entry; only
`example_05_textures_opengl` checks `IsValid()` first. -/
theorem C7_programs_bound_unchecked :
    validityCheckedBeforeBind (example_05_textures.main [[]]).trace = false ∧
    validityCheckedBeforeBind (example_11_camera_controllers.main 36 [false]).trace = false ∧
    validityCheckedBeforeBind
      (sample_texture.main
        { textureContainer := true, textureSmiley := true, shader := true } [false]).trace
      = false ∧
    (sample_texture.main
        { textureContainer := true, textureSmiley := true, shader := false } [false]).outcome
      = .nullDeref "_shader" ∧
    validityCheckedBeforeBind (example_05_textures_opengl.main true [[]]).trace = true := by
  decide

/-! ### C8 -/

/-- C8: when `IsValid()` answers false, `main` of `example_05_textures_opengl`
logs the error and returns 1 having created no buffer or vertex array, begun no
frame, bound nothing and drawn nothing; when it answers true, `main` runs the
frame loop, one `Begin()` and one `End()` for every iteration the window is
active, and returns 0 once the window is no longer active. -/
theorem C8_invalid_program_returns_one (frames : List (List Key)) :
    (example_05_textures_opengl.main false frames).outcome = .returned 1 ∧
    (example_05_textures_opengl.main false frames).trace =
      [.NewWindow, .RegisterCallback, .NewProgram "", .Build, .IsValid, .LogError] ∧
    (example_05_textures_opengl.main false frames).trace.all
      (fun c => !c.allocatesOrRenders) = true ∧
    (example_05_textures_opengl.main true frames).outcome = .returned 0 ∧
    (example_05_textures_opengl.main true frames).trace =
      [.NewWindow, .RegisterCallback, .NewProgram "", .Build, .IsValid,
       .NewVertexBuffer 64, .NewIndexBuffer 6, .NewVertexArray, .AddVertexBuffer,
       .SetIndexBuffer, .NewTexture "images/container.jpg"] ++
        example_05_textures_opengl.loop frames ∧
    List.count Call.Begin (example_05_textures_opengl.main true frames).trace = frames.length ∧
    List.count Call.End (example_05_textures_opengl.main true frames).trace = frames.length := by
  have hb := example_05_textures_opengl_loop_count .Begin (by decide) frames
  have hb1 : List.count Call.Begin (example_05_textures_opengl.frame []) = 1 := by decide
  have he := example_05_textures_opengl_loop_count .End (by decide) frames
  have he1 : List.count Call.End (example_05_textures_opengl.frame []) = 1 := by decide
  refine ⟨rfl, rfl, rfl, rfl, rfl, ?_, ?_⟩
  · simp [example_05_textures_opengl.main, Run.after, List.count_append, hb, hb1]
  · simp [example_05_textures_opengl.main, Run.after, List.count_append, he, he1]

/-! ### C9 -/

/-- C9, evaluated on the code: both assertions of `sample_texture` test
`_textureContainer`. With the container texture present and the smiley texture
missing, no assertion fails, the loop is entered and `_textureSmiley->bind()` is
called through the null pointer. -/
theorem C9_smiley_texture_not_asserted :
    sample_texture.main { textureContainer := true, textureSmiley := false, shader := true }
        [false] =
      { trace := [.NewWindow, .GetCachedTextureData "img_container",
                  .GetCachedTextureData "img_smiley", .NewTexture "img_container",
                  .EngineAssert true, .NewTexture "img_smiley", .EngineAssert true,
                  .NewVertexBuffer 112, .NewIndexBuffer 6, .NewVertexArray,
                  .AddVertexBuffer, .SetIndexBuffer, .NewProgram "basic2d_textures",
                  .Begin, .Bind .program, .Bind .vertexArray],
        outcome := .nullDeref "_textureSmiley" } := by
  decide

/-! ### C10 -/

theorem BufferLayout_foldl_AddElement (attrs : List BufferAttribute) (l : BufferLayout) :
    (attrs.foldl BufferLayout.AddElement l).stride =
        l.stride + (attrs.map (fun a => GetElementSize a.type)).sum ∧
    (attrs.foldl BufferLayout.AddElement l).offsets =
        l.offsets ++ (List.range attrs.length).map
          (fun k => l.stride + ((attrs.take k).map (fun a => GetElementSize a.type)).sum) ∧
    (attrs.foldl BufferLayout.AddElement l).elements.map (fun e => (e.name, e.type, e.size)) =
        l.elements.map (fun e => (e.name, e.type, e.size)) ++
          attrs.map (fun a => (a.name, a.type, GetElementSize a.type)) := by
  induction attrs generalizing l with
  | nil => simp [BufferLayout.offsets]
  | cons a rest ih =>
    obtain ⟨h1, h2, h3⟩ := ih (l.AddElement a)
    refine ⟨?_, ?_, ?_⟩
    · rw [List.foldl_cons, h1]
      simp [BufferLayout.AddElement, Nat.add_assoc]
    · rw [List.foldl_cons, h2, List.length_cons, List.range_succ_eq_map]
      simp [BufferLayout.AddElement, BufferLayout.offsets, Function.comp_def, Nat.add_assoc]
    · rw [List.foldl_cons, h3]
      simp [BufferLayout.AddElement]

/-- C10: for every layout built from an ordered list of attributes, the stride
is the sum of the attributes' byte sizes and the offset of the k-th attribute is
the sum of the sizes of the attributes before it; the layouts of the examples
have stride 16 with offsets 0, 8 (position FLOAT_2, texcoord FLOAT_2) and stride
28 with offsets 0, 8, 20 (position FLOAT_2, color FLOAT_3, texcoord FLOAT_2). -/
theorem C10_layout_stride_and_offsets (attrs : List BufferAttribute) :
    (BufferLayout.ofList attrs).stride = (attrs.map (fun a => GetElementSize a.type)).sum ∧
    (BufferLayout.ofList attrs).offsets =
      (List.range attrs.length).map
        (fun k => ((attrs.take k).map (fun a => GetElementSize a.type)).sum) ∧
    (BufferLayout.ofList attrs).elements.map (fun e => (e.name, e.type, e.size)) =
      attrs.map (fun a => (a.name, a.type, GetElementSize a.type)) ∧
    (GetElementSize .FLOAT_1 = 4 * 1 ∧ GetElementSize .FLOAT_2 = 4 * 2 ∧
      GetElementSize .FLOAT_3 = 4 * 3 ∧ GetElementSize .FLOAT_4 = 4 * 4) ∧
    (example_05_textures_opengl.layout.stride = 16 ∧
      example_05_textures_opengl.layout.offsets = [0, 8]) ∧
    (example_05_textures.layout.stride = 28 ∧
      example_05_textures.layout.offsets = [0, 8, 20]) ∧
    (sample_texture._layout.stride = 28 ∧ sample_texture._layout.offsets = [0, 8, 20]) := by
  obtain ⟨h1, h2, h3⟩ := BufferLayout_foldl_AddElement attrs { elements := [], stride := 0 }
  refine ⟨?_, ?_, ?_, by decide, by decide, by decide, by decide⟩
  · simpa [BufferLayout.ofList] using h1
  · simpa [BufferLayout.ofList, BufferLayout.offsets] using h2
  · simpa [BufferLayout.ofList] using h3

/-! ### C11 -/

/-- C11: every vertex buffer of the examples holds exactly its 4 vertices: the
stride of its layout, which is the sum of the byte sizes of its attributes, times
4 is at most, and in fact equal to, the byte size passed to the constructor:
16 * 4 = 64 in `example_05_textures_opengl`, 28 * 4 = 112 in `example_05_textures`
and in `sample_texture`. -/
theorem C11_vertex_buffers_hold_four_vertices :
    (example_05_textures_opengl.vbo.layout.stride =
        (example_05_textures_opengl.vbo.layout.elements.map BufferElement.size).sum ∧
      example_05_textures_opengl.vbo.layout.stride = 16 ∧
      example_05_textures_opengl.vbo.size = 64 ∧
      example_05_textures_opengl.vbo.layout.stride * 4 ≤ example_05_textures_opengl.vbo.size ∧
      example_05_textures_opengl.vbo.layout.stride * 4 = example_05_textures_opengl.vbo.size ∧
      example_05_textures_opengl.vbo.size % example_05_textures_opengl.vbo.layout.stride = 0) ∧
    (example_05_textures.vbo.layout.stride =
        (example_05_textures.vbo.layout.elements.map BufferElement.size).sum ∧
      example_05_textures.vbo.layout.stride = 28 ∧
      example_05_textures.vbo.size = 112 ∧
      example_05_textures.vbo.layout.stride * 4 ≤ example_05_textures.vbo.size ∧
      example_05_textures.vbo.layout.stride * 4 = example_05_textures.vbo.size ∧
      example_05_textures.vbo.size % example_05_textures.vbo.layout.stride = 0) ∧
    (sample_texture._vbuffer.layout.stride =
        (sample_texture._vbuffer.layout.elements.map BufferElement.size).sum ∧
      sample_texture._vbuffer.layout.stride = 28 ∧
      sample_texture._vbuffer.size = 112 ∧
      sample_texture._vbuffer.layout.stride * 4 ≤ sample_texture._vbuffer.size ∧
      sample_texture._vbuffer.layout.stride * 4 = sample_texture._vbuffer.size ∧
      sample_texture._vbuffer.size % sample_texture._vbuffer.layout.stride = 0) := by
  decide

/-! ### C13 -/

/-- C13: `SetProjectionType` acts on the camera it is called on and changes the
projection-type flag only: position, target, up and so the view matrix are
unchanged, as are fov, aspect, near, far, width and height, and the next
`proj_matrix()` is the perspective matrix or the orthographic matrix of these
unchanged parameters, according to the new type. Switching back restores the
camera. -/
theorem C13_projection_type_switch {M : Type} (ops : MatrixOps M) (c : Camera)
    (type : eProjectionType) :
    (c.SetProjectionType type).position = c.position ∧
    (c.SetProjectionType type).target = c.target ∧
    (c.SetProjectionType type).up = c.up ∧
    (c.SetProjectionType type).view_matrix ops = c.view_matrix ops ∧
    (c.SetProjectionType type).proj_data.projection = type ∧
    (c.SetProjectionType type).proj_data.fov = c.proj_data.fov ∧
    (c.SetProjectionType type).proj_data.aspect = c.proj_data.aspect ∧
    (c.SetProjectionType type).proj_data.near = c.proj_data.near ∧
    (c.SetProjectionType type).proj_data.far = c.proj_data.far ∧
    (c.SetProjectionType type).proj_data.width = c.proj_data.width ∧
    (c.SetProjectionType type).proj_data.height = c.proj_data.height ∧
    (c.SetProjectionType .PERSPECTIVE).proj_matrix ops =
      ops.perspective c.proj_data.fov c.proj_data.aspect c.proj_data.near c.proj_data.far ∧
    (c.SetProjectionType .ORTHOGRAPHIC).proj_matrix ops =
      ops.orthographic c.proj_data.width c.proj_data.height c.proj_data.near c.proj_data.far ∧
    (c.SetProjectionType type).SetProjectionType c.proj_data.projection = c := by
  refine ⟨rfl, rfl, rfl, rfl, rfl, rfl, rfl, rfl, rfl, rfl, rfl, rfl, rfl, ?_⟩
  cases c with
  | mk position target up proj_data => cases proj_data; rfl

/-! ### C14 -/

/-- C14: for every texture reference `t`, null included, `setAlbedoMap(t)` makes
`albedoMap()` return `t` and leaves `specularMap()`, `normalMap()`, `ambient`,
`diffuse`, `specular` and `shininess` as they were; likewise `setSpecularMap`
and `setNormalMap` for their own slot. -/
theorem C14_material_texture_slots_independent {T : Type} (m : CPhongMaterial T)
    (t : Option T) :
    ((m.setAlbedoMap t).albedoMap = t ∧
      (m.setAlbedoMap t).specularMap = m.specularMap ∧
      (m.setAlbedoMap t).normalMap = m.normalMap ∧
      (m.setAlbedoMap t).ambient = m.ambient ∧ (m.setAlbedoMap t).diffuse = m.diffuse ∧
      (m.setAlbedoMap t).specular = m.specular ∧
      (m.setAlbedoMap t).shininess = m.shininess) ∧
    ((m.setSpecularMap t).specularMap = t ∧
      (m.setSpecularMap t).albedoMap = m.albedoMap ∧
      (m.setSpecularMap t).normalMap = m.normalMap ∧
      (m.setSpecularMap t).ambient = m.ambient ∧ (m.setSpecularMap t).diffuse = m.diffuse ∧
      (m.setSpecularMap t).specular = m.specular ∧
      (m.setSpecularMap t).shininess = m.shininess) ∧
    ((m.setNormalMap t).normalMap = t ∧
      (m.setNormalMap t).albedoMap = m.albedoMap ∧
      (m.setNormalMap t).specularMap = m.specularMap ∧
      (m.setNormalMap t).ambient = m.ambient ∧ (m.setNormalMap t).diffuse = m.diffuse ∧
      (m.setNormalMap t).specular = m.specular ∧
      (m.setNormalMap t).shininess = m.shininess) :=
  ⟨⟨rfl, rfl, rfl, rfl, rfl, rfl, rfl⟩, ⟨rfl, rfl, rfl, rfl, rfl, rfl, rfl⟩,
    ⟨rfl, rfl, rfl, rfl, rfl, rfl, rfl⟩⟩

/-! ### C17 -/

/-- C17: `get_wrapping_mode_from_idx` undoes `get_wrapping_mode_idx` on the four
named wrap modes, `get_wrapping_mode_idx` undoes `get_wrapping_mode_from_idx` on
the indices below 4, and every index from 4 on is taken to `REPEAT`. -/
theorem C17_wrap_mode_conversions_inverse (i : Fin 4) (k : Nat) :
    example_05_textures_opengl.get_wrapping_mode_from_idx
      (example_05_textures_opengl.get_wrapping_mode_idx .REPEAT) = .REPEAT ∧
    example_05_textures_opengl.get_wrapping_mode_from_idx
      (example_05_textures_opengl.get_wrapping_mode_idx .REPEAT_MIRROR) = .REPEAT_MIRROR ∧
    example_05_textures_opengl.get_wrapping_mode_from_idx
      (example_05_textures_opengl.get_wrapping_mode_idx .CLAMP_TO_EDGE) = .CLAMP_TO_EDGE ∧
    example_05_textures_opengl.get_wrapping_mode_from_idx
      (example_05_textures_opengl.get_wrapping_mode_idx .CLAMP_TO_BORDER) = .CLAMP_TO_BORDER ∧
    example_05_textures_opengl.get_wrapping_mode_idx
      (example_05_textures_opengl.get_wrapping_mode_from_idx i.val) = i.val ∧
    example_05_textures_opengl.get_wrapping_mode_from_idx (4 + k) = .REPEAT := by
  refine ⟨rfl, rfl, rfl, rfl, ?_, ?_⟩
  · fin_cases i <;> rfl
  · have h : 4 + k = k + 4 := Nat.add_comm 4 k
    rw [h]
    rfl

/-! ### C19 -/

/-- C19: in each textured-quad example the index array has 6 elements, as many
as the index buffer is constructed with and a multiple of 3; the vertex buffer
holds 4 vertices (its byte size divided by the stride of its layout); every
index is smaller than 4; and the three indices of each of the two triangles are
pairwise distinct. -/
theorem C19_indices_within_vertex_buffer :
    (example_05_textures_opengl.buffer_indices.length = 6 ∧
      example_05_textures_opengl.ibo.count = example_05_textures_opengl.buffer_indices.length ∧
      example_05_textures_opengl.buffer_indices.length % 3 = 0 ∧
      example_05_textures_opengl.vbo.vertexCount = 4 ∧
      example_05_textures_opengl.buffer_indices.all
        (fun i => decide (i < example_05_textures_opengl.vbo.vertexCount)) = true ∧
      (triangles example_05_textures_opengl.buffer_indices).length = 2 ∧
      (triangles example_05_textures_opengl.buffer_indices).all
        (fun t => decide t.Nodup) = true) ∧
    (example_05_textures.buffer_indices.length = 6 ∧
      example_05_textures.ibo.count = example_05_textures.buffer_indices.length ∧
      example_05_textures.buffer_indices.length % 3 = 0 ∧
      example_05_textures.vbo.vertexCount = 4 ∧
      example_05_textures.buffer_indices.all
        (fun i => decide (i < example_05_textures.vbo.vertexCount)) = true ∧
      (triangles example_05_textures.buffer_indices).length = 2 ∧
      (triangles example_05_textures.buffer_indices).all (fun t => decide t.Nodup) = true) ∧
    (sample_texture._indices.length = 6 ∧
      sample_texture._ibuffer.count = sample_texture._indices.length ∧
      sample_texture._indices.length % 3 = 0 ∧
      sample_texture._vbuffer.vertexCount = 4 ∧
      sample_texture._indices.all
        (fun i => decide (i < sample_texture._vbuffer.vertexCount)) = true ∧
      (triangles sample_texture._indices).length = 2 ∧
      (triangles sample_texture._indices).all (fun t => decide t.Nodup) = true) := by
  decide

/-! ### C12 -/

theorem ResourceCache_find_eq_none (c : ResourceCache) (name : String) :
    c.find name = none ↔ name ∉ c.names := by
  obtain ⟨entries, constructed⟩ := c
  simp only [ResourceCache.find, ResourceCache.names]
  induction entries with
  | nil => simp
  | cons e rest ih =>
    obtain ⟨n, k⟩ := e
    by_cases h : name = n
    · subst h
      simp [List.lookup]
    · have hb : (name == n) = false := by simpa using h
      simp [List.lookup, hb, h, ih]

theorem ResourceCache_find_GetCached_self (c : ResourceCache) (name : String) :
    (c.GetCached name).2.find name = some (c.GetCached name).1 := by
  unfold ResourceCache.GetCached
  cases h : c.find name with
  | some k => simpa using h
  | none => simp [ResourceCache.find, List.lookup]

theorem ResourceCache_find_GetCached_other (c : ResourceCache) (name other : String) (k : Nat)
    (h : c.find name = some k) : (c.GetCached other).2.find name = some k := by
  unfold ResourceCache.GetCached
  cases ho : c.find other with
  | some j => simpa using h
  | none =>
    have hne : name ≠ other := by
      intro he
      rw [he, ho] at h
      cases h
    have hb : (name == other) = false := by simpa using hne
    simpa [ResourceCache.find, List.lookup, hb] using h

theorem ResourceCache_find_serve (others : List String) (c : ResourceCache) (name : String)
    (k : Nat) (h : c.find name = some k) : (c.serve others).find name = some k := by
  induction others generalizing c with
  | nil => exact h
  | cons o rest ih =>
    exact ih (c.GetCached o).2 (ResourceCache_find_GetCached_other c name o k h)

theorem ResourceCache_GetCached_hit (c : ResourceCache) (name : String) (k : Nat)
    (h : c.find name = some k) : c.GetCached name = (k, c) := by
  simp [ResourceCache.GetCached, h]

theorem ResourceCache_GetCached_invariant (c : ResourceCache) (name : String)
    (h : c.names.Nodup ∧ c.constructed = c.names.length) :
    (c.GetCached name).2.names.Nodup ∧
      (c.GetCached name).2.constructed = (c.GetCached name).2.names.length := by
  unfold ResourceCache.GetCached
  cases hf : c.find name with
  | some k => simpa using h
  | none =>
    have hn := (ResourceCache_find_eq_none c name).mp hf
    simp only [ResourceCache.names, List.map_cons, List.nodup_cons, List.length_cons]
    exact ⟨⟨hn, h.1⟩, by rw [h.2]; rfl⟩

theorem ResourceCache_serve_invariant (reqs : List String) (c : ResourceCache)
    (h : c.names.Nodup ∧ c.constructed = c.names.length) :
    (c.serve reqs).names.Nodup ∧ (c.serve reqs).constructed = (c.serve reqs).names.length := by
  induction reqs generalizing c with
  | nil => exact h
  | cons r rest ih => exact ih (c.GetCached r).2 (ResourceCache_GetCached_invariant c r h)

/-- C12: in a name-keyed cache with load-or-get lookups, a second lookup of a
name, after any lookups in between and no teardown, returns the instance that
the first lookup returned and leaves the cache as it is, so it constructs
nothing; and after any sequence of lookups from the empty cache the names held
are pairwise distinct and one resource has been constructed for each. -/
theorem C12_cache_lookup_idempotent (c : ResourceCache) (name : String)
    (others reqs : List String) :
    (((c.GetCached name).2.serve others).GetCached name).1 = (c.GetCached name).1 ∧
    (((c.GetCached name).2.serve others).GetCached name).2 =
      (c.GetCached name).2.serve others ∧
    (((c.GetCached name).2.serve others).GetCached name).2.constructed =
      ((c.GetCached name).2.serve others).constructed ∧
    (ResourceCache.empty.serve reqs).names.Nodup ∧
    (ResourceCache.empty.serve reqs).constructed = (ResourceCache.empty.serve reqs).names.length := by
  have h1 := ResourceCache_find_serve others (c.GetCached name).2 name (c.GetCached name).1
    (ResourceCache_find_GetCached_self c name)
  have h2 := ResourceCache_GetCached_hit _ name _ h1
  have h3 := ResourceCache_serve_invariant reqs ResourceCache.empty
    ⟨by simp [ResourceCache.empty, ResourceCache.names], rfl⟩
  rw [h2]
  exact ⟨rfl, rfl, rfl, h3.1, h3.2⟩

/-! ### Single-precision evaluations -/

set_option maxRecDepth 100000 in
theorem F32_constants :
    example_11_camera_controllers.FRUSTUM_SIZE = .finite (5 * 2 ^ 151) ∧
    F32.ofInt 0 = .finite 0 ∧
    F32.ofInt 45 = .finite (45 * 2 ^ 149) ∧
    F32.ofInt 180 = .finite (45 * 2 ^ 151) ∧
    F32.ofInt 1000 = .finite (125 * 2 ^ 152) ∧
    F32.ofRatio 1 10 = .finite (13421773 * 2 ^ 122) ∧
    example_11_camera_controllers.WINDOW_ASPECT = .finite (11184811 * 2 ^ 126) ∧
    F32.mul example_11_camera_controllers.FRUSTUM_SIZE
      example_11_camera_controllers.WINDOW_ASPECT = .finite (6990507 * 2 ^ 131) := by
  decide

set_option maxRecDepth 100000 in
theorem F32_resize_zero_width :
    F32.div (F32.ofInt 0) (F32.ofInt 600) = .finite 0 ∧
    F32.mul example_11_camera_controllers.FRUSTUM_SIZE (.finite 0) = .finite 0 := by
  decide

set_option maxRecDepth 100000 in
theorem F32_resize_zero_height :
    F32.div (F32.ofInt 800) (F32.ofInt 0) = .inf false ∧
    F32.mul example_11_camera_controllers.FRUSTUM_SIZE (.inf false) = .inf false ∧
    F32.div (F32.ofInt 0) (F32.ofInt 0) = .nan ∧
    F32.mul example_11_camera_controllers.FRUSTUM_SIZE .nan = .nan := by
  decide

set_option maxRecDepth 100000 in
theorem F32_resize_1920_1080 :
    F32.div (F32.ofInt 1920) (F32.ofInt 1080) = .finite (14913081 * 2 ^ 126) ∧
    F32.mul example_11_camera_controllers.FRUSTUM_SIZE (.finite (14913081 * 2 ^ 126)) =
      .finite (2330169 * 2 ^ 133) ∧
    F32.div (.finite (2330169 * 2 ^ 133)) example_11_camera_controllers.FRUSTUM_SIZE =
      .finite (7456541 * 2 ^ 127) := by
  decide

set_option maxRecDepth 100000 in
theorem F32_resize_800_600 :
    F32.div (F32.ofInt 800) (F32.ofInt 600) = .finite (11184811 * 2 ^ 126) ∧
    F32.mul example_11_camera_controllers.FRUSTUM_SIZE (.finite (11184811 * 2 ^ 126)) =
      .finite (6990507 * 2 ^ 131) ∧
    F32.div (.finite (6990507 * 2 ^ 131)) example_11_camera_controllers.FRUSTUM_SIZE =
      .finite (11184811 * 2 ^ 126) := by
  decide

/-! ### C15 -/

set_option maxRecDepth 100000 in
/-- C15, evaluated on the code: the projection data that `main` builds at start
is invertible in both modes, but for a resize event of width 0 the resize
callback hands `SetProjectionData` an aspect of 0 and a width of 0, and for one
of height 0 an infinite or NaN aspect and width (the division is by zero), so the
data is not invertible, whatever the camera held before. -/
theorem C15_degenerate_resize_breaks_projection (current : ProjectionData) :
    (example_11_camera_controllers.resizeData current 0 600).aspect = .finite 0 ∧
    (example_11_camera_controllers.resizeData current 0 600).width = .finite 0 ∧
    (example_11_camera_controllers.resizeData current 0 600).invertible = false ∧
    (example_11_camera_controllers.resizeData current 800 0).aspect = .inf false ∧
    (example_11_camera_controllers.resizeData current 800 0).width = .inf false ∧
    (example_11_camera_controllers.resizeData current 800 0).invertible = false ∧
    (example_11_camera_controllers.resizeData current 0 0).aspect = .nan ∧
    (example_11_camera_controllers.resizeData current 0 0).width = .nan ∧
    (example_11_camera_controllers.resizeData current 0 0).invertible = false ∧
    (example_11_camera_controllers.proj_data
        { projection := .PERSPECTIVE, fov := .finite 0, aspect := .finite 0, near := .finite 0,
          far := .finite 0, width := .finite 0, height := .finite 0 }).invertible = true ∧
    (example_11_camera_controllers.proj_data
        { projection := .ORTHOGRAPHIC, fov := .finite 0, aspect := .finite 0, near := .finite 0,
          far := .finite 0, width := .finite 0, height := .finite 0 }).invertible = true := by
  obtain ⟨h1, h2⟩ := F32_resize_zero_width
  obtain ⟨h3, h4, h5, h6⟩ := F32_resize_zero_height
  refine ⟨?_, ?_, ?_, ?_, ?_, ?_, ?_, ?_, ?_, by decide, by decide⟩ <;>
    simp [example_11_camera_controllers.resizeData, ProjectionData.invertible, F32.isFinite,
      h1, h2, h3, h4, h5, h6]

/-! ### C20 -/

set_option maxRecDepth 100000 in
/-- C20, as stated, fails: for the resize event 1920 x 1080 the callback passes
the aspect 14913081 / 2^23, the width 2330169 / 2^16 (the product 20 * aspect,
rounded) and the height 20; width / height is not the aspect, neither exactly
nor as a single-precision quotient, which is 14913082 / 2^23. -/
theorem C20_width_over_height_is_not_aspect :
    ¬ (F32.div
        (example_11_camera_controllers.resizeData
          (example_11_camera_controllers.proj_data
            { projection := .PERSPECTIVE, fov := .finite 0, aspect := .finite 0,
              near := .finite 0, far := .finite 0, width := .finite 0, height := .finite 0 })
          1920 1080).width
        (example_11_camera_controllers.resizeData
          (example_11_camera_controllers.proj_data
            { projection := .PERSPECTIVE, fov := .finite 0, aspect := .finite 0,
              near := .finite 0, far := .finite 0, width := .finite 0, height := .finite 0 })
          1920 1080).height =
      (example_11_camera_controllers.resizeData
          (example_11_camera_controllers.proj_data
            { projection := .PERSPECTIVE, fov := .finite 0, aspect := .finite 0,
              near := .finite 0, far := .finite 0, width := .finite 0, height := .finite 0 })
          1920 1080).aspect) ∧
    ¬ (F32.quotientIsExactly
        (example_11_camera_controllers.resizeData
          (example_11_camera_controllers.proj_data
            { projection := .PERSPECTIVE, fov := .finite 0, aspect := .finite 0,
              near := .finite 0, far := .finite 0, width := .finite 0, height := .finite 0 })
          1920 1080).width
        (example_11_camera_controllers.resizeData
          (example_11_camera_controllers.proj_data
            { projection := .PERSPECTIVE, fov := .finite 0, aspect := .finite 0,
              near := .finite 0, far := .finite 0, width := .finite 0, height := .finite 0 })
          1920 1080).height
        (example_11_camera_controllers.resizeData
          (example_11_camera_controllers.proj_data
            { projection := .PERSPECTIVE, fov := .finite 0, aspect := .finite 0,
              near := .finite 0, far := .finite 0, width := .finite 0, height := .finite 0 })
          1920 1080).aspect = true) := by
  decide

/-- C20, amended: for every resize event the callback passes to
`SetProjectionData` the camera's current projection data with the aspect replaced
by the single-precision quotient of width and height, the height by
`FRUSTUM_SIZE`, which is 20, and the width by the single-precision product of 20
and that aspect; projection type, fov, near and far are passed through
unchanged. At 800 x 600 the single-precision quotient width / height gives back
the aspect. -/
theorem C20_resize_projection_data (camera : Camera) (width height : Int) :
    (example_11_camera_controllers.resizeCallback camera width height).proj_data =
      example_11_camera_controllers.resizeData camera.proj_data width height ∧
    (example_11_camera_controllers.resizeData camera.proj_data width height).aspect =
      F32.div (F32.ofInt width) (F32.ofInt height) ∧
    (example_11_camera_controllers.resizeData camera.proj_data width height).height =
      example_11_camera_controllers.FRUSTUM_SIZE ∧
    example_11_camera_controllers.FRUSTUM_SIZE.toRat = some 20 ∧
    (example_11_camera_controllers.resizeData camera.proj_data width height).width =
      F32.mul example_11_camera_controllers.FRUSTUM_SIZE
        (F32.div (F32.ofInt width) (F32.ofInt height)) ∧
    (example_11_camera_controllers.resizeData camera.proj_data width height).projection =
      camera.proj_data.projection ∧
    (example_11_camera_controllers.resizeData camera.proj_data width height).fov =
      camera.proj_data.fov ∧
    (example_11_camera_controllers.resizeData camera.proj_data width height).near =
      camera.proj_data.near ∧
    (example_11_camera_controllers.resizeData camera.proj_data width height).far =
      camera.proj_data.far ∧
    F32.div (example_11_camera_controllers.resizeData camera.proj_data 800 600).width
        (example_11_camera_controllers.resizeData camera.proj_data 800 600).height =
      (example_11_camera_controllers.resizeData camera.proj_data 800 600).aspect := by
  obtain ⟨h1, h2, h3⟩ := F32_resize_800_600
  refine ⟨rfl, ?_, ?_, ?_, ?_, rfl, rfl, rfl, rfl, ?_⟩
  · simp only [example_11_camera_controllers.resizeData]
  · simp only [example_11_camera_controllers.resizeData]
  · rw [F32_constants.1]
    simp only [F32.toRat]
    norm_num
  · simp only [example_11_camera_controllers.resizeData]
  · simp only [example_11_camera_controllers.resizeData, h1, h2, h3]

/-! ### The options block -/

theorem get_wrapping_mode_idx_lt (w : eTextureWrap) :
    example_05_textures_opengl.get_wrapping_mode_idx w < 4 := by
  cases w <;> simp [example_05_textures_opengl.get_wrapping_mode_idx]

theorem combo_items_at_isSome (i : Nat) (h : i < 4) :
    ∃ item, example_05_textures_opengl.combo_items_at i = some item := by
  interval_cases i <;> exact ⟨_, rfl⟩

theorem comboLoop_lt (input : example_05_textures_opengl.ComboInput) (current : Nat)
    (h : current < 4) :
    ∃ selected,
      example_05_textures_opengl.comboLoop input
        (List.range example_05_textures_opengl.combo_items.length) current = some selected ∧
      selected < 4 := by
  have hr : List.range example_05_textures_opengl.combo_items.length = [0, 1, 2, 3] := by
    decide
  rw [hr]
  simp only [example_05_textures_opengl.comboLoop, example_05_textures_opengl.combo_items_at,
    example_05_textures_opengl.combo_items]
  refine ⟨_, rfl, ?_⟩
  split_ifs <;> omega

theorem wrapBlock_spec (static_ : Option Nat) (current : eTextureWrap)
    (input : example_05_textures_opengl.ComboInput)
    (h : example_05_textures_opengl.indexInRange static_ = true) :
    ∃ selected,
      example_05_textures_opengl.wrapBlock static_ current input =
        some (selected,
          if example_05_textures_opengl.get_wrapping_mode_from_idx selected ≠ current then
            some (example_05_textures_opengl.get_wrapping_mode_from_idx selected)
          else none) ∧
      selected < 4 := by
  have hlt : (match static_ with
      | some index => index
      | none => example_05_textures_opengl.get_wrapping_mode_idx current) < 4 := by
    cases static_ with
    | none => exact get_wrapping_mode_idx_lt current
    | some index =>
      simpa [example_05_textures_opengl.indexInRange,
        example_05_textures_opengl.combo_items] using h
  obtain ⟨item, hitem⟩ := combo_items_at_isSome _ hlt
  obtain ⟨selected, hsel, hsel4⟩ := comboLoop_lt input _ hlt
  unfold example_05_textures_opengl.wrapBlock
  simp only [hitem]
  cases input.opened with
  | true => exact ⟨selected, by simp [hsel], hsel4⟩
  | false => exact ⟨_, by simp, hlt⟩

theorem optionsBlock_eq {V : Type} (differs : V → V → Bool)
    (st : example_05_textures_opengl.Statics V)
    (texture : example_05_textures_opengl.OpenGLTexture V)
    (input : example_05_textures_opengl.OptionsInput V) (h : st.inRange = true) :
    ∃ indexU indexV : Nat, indexU < 4 ∧ indexV < 4 ∧
      example_05_textures_opengl.optionsBlock differs st texture input =
        some ({ s_CurrentIndexU := some indexU, s_CurrentIndexV := some indexV,
                s_Color := some (input.colorEdit
                  (match st.s_Color with
                   | some c => c
                   | none => texture.border_color)) },
              { wrap_mode_u := example_05_textures_opengl.get_wrapping_mode_from_idx indexU,
                wrap_mode_v := example_05_textures_opengl.get_wrapping_mode_from_idx indexV,
                border_color :=
                  if differs (input.colorEdit
                      (match st.s_Color with
                       | some c => c
                       | none => texture.border_color)) texture.border_color
                  then input.colorEdit
                      (match st.s_Color with
                       | some c => c
                       | none => texture.border_color)
                  else texture.border_color },
              (if example_05_textures_opengl.get_wrapping_mode_from_idx indexU ≠
                    texture.wrap_mode_u
                then [example_05_textures_opengl.TextureCall.SetWrapModeU
                  (example_05_textures_opengl.get_wrapping_mode_from_idx indexU)]
                else []) ++
              (if example_05_textures_opengl.get_wrapping_mode_from_idx indexV ≠
                    texture.wrap_mode_v
                then [example_05_textures_opengl.TextureCall.SetWrapModeV
                  (example_05_textures_opengl.get_wrapping_mode_from_idx indexV)]
                else []) ++
              (if differs (input.colorEdit
                    (match st.s_Color with
                     | some c => c
                     | none => texture.border_color)) texture.border_color
                then [example_05_textures_opengl.TextureCall.SetBorderColor
                  (input.colorEdit
                    (match st.s_Color with
                     | some c => c
                     | none => texture.border_color))]
                else [])) := by
  simp only [example_05_textures_opengl.Statics.inRange, Bool.and_eq_true] at h
  obtain ⟨iu, hU, hu4⟩ := wrapBlock_spec st.s_CurrentIndexU texture.wrap_mode_u input.comboU h.1
  obtain ⟨iv, hV, hv4⟩ := wrapBlock_spec st.s_CurrentIndexV texture.wrap_mode_v input.comboV h.2
  refine ⟨iu, iv, hu4, hv4, ?_⟩
  obtain ⟨wu, wv, bc⟩ := texture
  simp only at hU hV ⊢
  by_cases hu : example_05_textures_opengl.get_wrapping_mode_from_idx iu = wu <;>
    by_cases hv : example_05_textures_opengl.get_wrapping_mode_from_idx iv = wv <;>
    cases hc : differs (input.colorEdit
      (match st.s_Color with
       | some c => c
       | none => bc)) bc <;>
    simp [example_05_textures_opengl.optionsBlock, hU, hV, hu, hv, hc,
      example_05_textures_opengl.OpenGLTexture.SetWrapModeU,
      example_05_textures_opengl.OpenGLTexture.SetWrapModeV,
      example_05_textures_opengl.OpenGLTexture.SetBorderColor]

/-! ### C16 -/


/-- C16: in one frame of the options block of `example_05_textures_opengl`,
entered with its static indices in range: `SetWrapModeU` is called, in that
frame and with the mode of the selected index, exactly when that mode differs
from the texture's current wrap-u mode, and after the block `wrap_mode_u()` is
the mode of the selected index; the same holds for wrap-v with `SetWrapModeV`;
and `SetBorderColor` is called, with the edited colour, exactly when the edited
colour differs from `border_color()`. -/
theorem C16_setters_called_iff_changed {V : Type} (differs : V → V → Bool)
    (st : example_05_textures_opengl.Statics V)
    (texture : example_05_textures_opengl.OpenGLTexture V)
    (input : example_05_textures_opengl.OptionsInput V) (h : st.inRange = true) :
    ∃ (indexU indexV : Nat) (color : V)
      (texture1 : example_05_textures_opengl.OpenGLTexture V)
      (calls : List (example_05_textures_opengl.TextureCall V)),
      example_05_textures_opengl.optionsBlock differs st texture input =
        some ({ s_CurrentIndexU := some indexU, s_CurrentIndexV := some indexV,
                s_Color := some color }, texture1, calls) ∧
      (example_05_textures_opengl.TextureCall.SetWrapModeU
          (example_05_textures_opengl.get_wrapping_mode_from_idx indexU) ∈ calls ↔
        example_05_textures_opengl.get_wrapping_mode_from_idx indexU ≠ texture.wrap_mode_u) ∧
      (∀ mode, example_05_textures_opengl.TextureCall.SetWrapModeU mode ∈ calls →
        mode = example_05_textures_opengl.get_wrapping_mode_from_idx indexU) ∧
      texture1.wrap_mode_u = example_05_textures_opengl.get_wrapping_mode_from_idx indexU ∧
      (example_05_textures_opengl.TextureCall.SetWrapModeV
          (example_05_textures_opengl.get_wrapping_mode_from_idx indexV) ∈ calls ↔
        example_05_textures_opengl.get_wrapping_mode_from_idx indexV ≠ texture.wrap_mode_v) ∧
      (∀ mode, example_05_textures_opengl.TextureCall.SetWrapModeV mode ∈ calls →
        mode = example_05_textures_opengl.get_wrapping_mode_from_idx indexV) ∧
      texture1.wrap_mode_v = example_05_textures_opengl.get_wrapping_mode_from_idx indexV ∧
      color = input.colorEdit
        (match st.s_Color with
         | some c => c
         | none => texture.border_color) ∧
      (example_05_textures_opengl.TextureCall.SetBorderColor color ∈ calls ↔
        differs color texture.border_color = true) ∧
      (∀ c, example_05_textures_opengl.TextureCall.SetBorderColor c ∈ calls → c = color) ∧
      texture1.border_color =
        (if differs color texture.border_color then color else texture.border_color) := by
  obtain ⟨iu, iv, -, -, heq⟩ := optionsBlock_eq differs st texture input h
  refine ⟨iu, iv, _, _, _, heq, ?_, ?_, ?_, ?_, ?_, ?_, rfl, ?_, ?_, rfl⟩
  · by_cases hu : example_05_textures_opengl.get_wrapping_mode_from_idx iu = texture.wrap_mode_u
      <;> simp [hu]
  · intro mode hm
    simp only [List.mem_append] at hm
    rcases hm with (hm | hm) | hm
    · split_ifs at hm <;> simp_all
    · split_ifs at hm <;> simp_all
    · split_ifs at hm <;> simp_all
  · rfl
  · by_cases hv : example_05_textures_opengl.get_wrapping_mode_from_idx iv = texture.wrap_mode_v
      <;> simp [hv]
  · intro mode hm
    simp only [List.mem_append] at hm
    rcases hm with (hm | hm) | hm
    · split_ifs at hm <;> simp_all
    · split_ifs at hm <;> simp_all
    · split_ifs at hm <;> simp_all
  · rfl
  · cases hc : differs (input.colorEdit
      (match st.s_Color with
       | some c => c
       | none => texture.border_color)) texture.border_color <;> simp [hc]
  · intro c hm
    simp only [List.mem_append] at hm
    rcases hm with (hm | hm) | hm
    · split_ifs at hm <;> simp_all
    · split_ifs at hm <;> simp_all
    · split_ifs at hm <;> simp_all

/-- Witness of C16: the first frame, in which the third item of the wrap-u combo
is clicked and the colour is edited. -/
theorem C16_setters_called_iff_changed_witness :
    ∃ (indexU indexV : Nat) (color : Nat)
      (texture1 : example_05_textures_opengl.OpenGLTexture Nat)
      (calls : List (example_05_textures_opengl.TextureCall Nat)),
      example_05_textures_opengl.optionsBlock example_05_textures_opengl.exampleDiffers
          (example_05_textures_opengl.Statics.initial : example_05_textures_opengl.Statics Nat)
          example_05_textures_opengl.exampleTexture example_05_textures_opengl.exampleInput =
        some ({ s_CurrentIndexU := some indexU, s_CurrentIndexV := some indexV,
                s_Color := some color }, texture1, calls) ∧
      (example_05_textures_opengl.TextureCall.SetWrapModeU
          (example_05_textures_opengl.get_wrapping_mode_from_idx indexU) ∈ calls ↔
        example_05_textures_opengl.get_wrapping_mode_from_idx indexU ≠
          example_05_textures_opengl.exampleTexture.wrap_mode_u) ∧
      (∀ mode, example_05_textures_opengl.TextureCall.SetWrapModeU mode ∈ calls →
        mode = example_05_textures_opengl.get_wrapping_mode_from_idx indexU) ∧
      texture1.wrap_mode_u = example_05_textures_opengl.get_wrapping_mode_from_idx indexU ∧
      (example_05_textures_opengl.TextureCall.SetWrapModeV
          (example_05_textures_opengl.get_wrapping_mode_from_idx indexV) ∈ calls ↔
        example_05_textures_opengl.get_wrapping_mode_from_idx indexV ≠
          example_05_textures_opengl.exampleTexture.wrap_mode_v) ∧
      (∀ mode, example_05_textures_opengl.TextureCall.SetWrapModeV mode ∈ calls →
        mode = example_05_textures_opengl.get_wrapping_mode_from_idx indexV) ∧
      texture1.wrap_mode_v = example_05_textures_opengl.get_wrapping_mode_from_idx indexV ∧
      color = example_05_textures_opengl.exampleInput.colorEdit
        (match (example_05_textures_opengl.Statics.initial :
          example_05_textures_opengl.Statics Nat).s_Color with
         | some c => c
         | none => example_05_textures_opengl.exampleTexture.border_color) ∧
      (example_05_textures_opengl.TextureCall.SetBorderColor color ∈ calls ↔
        example_05_textures_opengl.exampleDiffers color
          example_05_textures_opengl.exampleTexture.border_color = true) ∧
      (∀ c, example_05_textures_opengl.TextureCall.SetBorderColor c ∈ calls → c = color) ∧
      texture1.border_color =
        (if example_05_textures_opengl.exampleDiffers color
            example_05_textures_opengl.exampleTexture.border_color
          then color else example_05_textures_opengl.exampleTexture.border_color) :=
  C16_setters_called_iff_changed example_05_textures_opengl.exampleDiffers
    example_05_textures_opengl.Statics.initial example_05_textures_opengl.exampleTexture
    example_05_textures_opengl.exampleInput rfl

/-! ### C18 -/

theorem optionsFrames_inRange {V : Type} (differs : V → V → Bool)
    (frames : List (example_05_textures_opengl.OptionsInput V))
    (st : example_05_textures_opengl.Statics V)
    (texture : example_05_textures_opengl.OpenGLTexture V) (h : st.inRange = true) :
    ∃ st1 texture1,
      example_05_textures_opengl.optionsFrames differs st texture frames =
        some (st1, texture1) ∧ st1.inRange = true := by
  induction frames generalizing st texture with
  | nil => exact ⟨st, texture, rfl, h⟩
  | cons input rest ih =>
    obtain ⟨iu, iv, hu, hv, heq⟩ := optionsBlock_eq differs st texture input h
    simp only [example_05_textures_opengl.optionsFrames, heq]
    apply ih
    simp [example_05_textures_opengl.Statics.inRange, example_05_textures_opengl.indexInRange,
      example_05_textures_opengl.combo_items, hu, hv]

/-- C18: `get_wrapping_mode_idx` returns an index below 4, the number of combo
items, for every wrap mode, the unnamed ones included, so the first lookup
`combo_items.at(s_CurrentIndex)` succeeds; and over any number of frames of the
options block, whatever the UI reports, no `combo_items.at` throws and both
static indices stay below 4. -/
theorem C18_combo_index_stays_in_range {V : Type} (differs : V → V → Bool)
    (texture : example_05_textures_opengl.OpenGLTexture V)
    (frames : List (example_05_textures_opengl.OptionsInput V)) (w : eTextureWrap) :
    example_05_textures_opengl.combo_items.length = 4 ∧
    example_05_textures_opengl.get_wrapping_mode_idx w <
      example_05_textures_opengl.combo_items.length ∧
    (example_05_textures_opengl.combo_items_at
      (example_05_textures_opengl.get_wrapping_mode_idx w)).isSome = true ∧
    ∃ st1 texture1,
      example_05_textures_opengl.optionsFrames differs
        example_05_textures_opengl.Statics.initial texture frames = some (st1, texture1) ∧
      st1.inRange = true := by
  refine ⟨rfl, get_wrapping_mode_idx_lt w, ?_, ?_⟩
  · obtain ⟨item, hitem⟩ := combo_items_at_isSome _ (get_wrapping_mode_idx_lt w)
    simp [hitem]
  · exact optionsFrames_inRange differs frames _ texture rfl

end LocoRenderer
